import Mathlib

/-!
# Event processor and notifier Lambda handlers

A shallow embedding of the two Lambda handlers of the demo service template,
`infrastructure/lambda/processor.js` and `infrastructure/lambda/notifier.js`.

* JavaScript values are the inductive type `JSValue`: the values a parsed JSON
  event can hold, and `undefined`. An object is a plain object (prototype
  `Object.prototype`) given by its own properties; none of them is callable.
* A number is given by what the handlers can observe of it: the text
  `Number::toString` gives for it, whether it is falsy, whether it is finite.
  The built-in that prints a double is not re-implemented.
* Strings are sequences of Unicode scalar values (no lone surrogates).
* `String.prototype.toUpperCase` is a parameter of the notifier, named
  `toUpperCase`; the Unicode case mapping is not re-implemented.
* `ToString`, as applied by a template literal, throws a `TypeError` on an
  object that has an own property `toString`, and `toStr` returns that error.
* `process.env` is the record `ProcessEnv`; an unset variable is `none`.
* `new Date().toISOString()` is a clock reading passed in as a string, one
  parameter per call site.
* `sns.publish(params).promise()` is a function from the request to success or
  an error value; every request handed to it is recorded in `Run.published`.
* `console.log` and `console.error` have no effect on results and are left out.
* An event is any `JSValue`; reading a property of an `undefined` or `null`
  event throws a `TypeError`, which the handlers rethrow.
* `pipeline` runs the notifier on the very object the processor returned.
-/

namespace Summit

/-- A JavaScript number, through what the handlers observe of it: `text` is
the string `Number::toString` gives for it (as in "1", "0.5", "1e+21",
"Infinity"), `isFalsy` says that it is `+0`, `-0` or `NaN`, and `isFinite`
that it is neither `NaN` nor an infinity. -/
structure JSNumber where
  text : String
  isFalsy : Bool
  isFinite : Bool

/-- The number of an integer `n` in the range where every integer is a
double (`|n| ≤ 2^53`); `Number::toString` prints it digit by digit. -/
def JSNumber.ofInt (n : Int) : JSNumber :=
  ⟨toString n, n == 0, true⟩

/-- JavaScript values an event can carry. An object is its list of own
properties in enumeration order, each key once. -/
inductive JSValue where
  | undefined
  | null
  | bool (b : Bool)
  | number (n : JSNumber)
  | string (s : String)
  | array (elems : List JSValue)
  | object (props : List (String × JSValue))

/-- The `TypeError`s of the handlers: reading property `key` of `undefined` or
`null`, and converting to a string an object that has no usable `toString`
or `valueOf`. -/
inductive TypeError where
  | nullishRead (key : String)
  | notPrimitive

namespace JSValue

/-- JavaScript `ToBoolean`. -/
def truthy : JSValue → Bool
  | .undefined => false
  | .null => false
  | .bool b => b
  | .number n => !n.isFalsy
  | .string s => s != ""
  | .array _ => true
  | .object _ => true

/-- The operator `a || b`. -/
def or (a b : JSValue) : JSValue :=
  if a.truthy then a else b

/-- Whether a value is `undefined` or `null`. -/
def isNullish : JSValue → Bool
  | .undefined => true
  | .null => true
  | _ => false

/-- The value of own property `key` in a property list, `undefined` when absent. -/
def lookup : List (String × JSValue) → String → JSValue
  | [], _ => .undefined
  | (k, v) :: rest, key => if k = key then v else lookup rest key

/-- Whether a property list has an own property `key`. -/
def hasOwn : List (String × JSValue) → String → Bool
  | [], _ => false
  | (k, _) :: rest, key => k == key || hasOwn rest key

/-- Field `key` of a value, with an absent field (and any field of a value
that is not an object) being `undefined`. Used to state properties; the
handlers read through `read`. -/
def get (v : JSValue) (key : String) : JSValue :=
  match v with
  | .object props => lookup props key
  | _ => .undefined

/-- The property read `v.key` / `v[key]`, for the property names the handlers
use (none of them is `length`, an index, or defined on a built-in prototype):
a `TypeError` on `undefined` and `null`, the own property of an object, and
`undefined` on every other value. -/
def read (v : JSValue) (key : String) : Except TypeError JSValue :=
  match v with
  | .undefined => .error (.nullishRead key)
  | .null => .error (.nullishRead key)
  | .object props => .ok (lookup props key)
  | _ => .ok .undefined

/-- The property assignment `obj.key = v` on a property list: an existing
property keeps its place, a new one is appended. -/
def assign : List (String × JSValue) → String → JSValue → List (String × JSValue)
  | [], key, v => [(key, v)]
  | (k, x) :: rest, key, v =>
    if k = key then (k, v) :: rest else (k, x) :: assign rest key v

/-- The comparison `v === 'literal'` against a string literal. -/
def strictEqString (v : JSValue) (lit : String) : Bool :=
  match v with
  | .string s => s == lit
  | _ => false

mutual
/-- JavaScript `ToString`, as applied by a template literal. A plain object
is "[object Object]" through `Object.prototype.toString`, unless it has an
own property `toString`: that one is not callable, and neither an own
`valueOf` nor the inherited one yields a primitive, so the conversion throws.
An array is its elements joined by commas. -/
def toStr : JSValue → Except TypeError String
  | .undefined => .ok "undefined"
  | .null => .ok "null"
  | .bool b => .ok (if b then "true" else "false")
  | .number n => .ok n.text
  | .string s => .ok s
  | .array elems =>
    match toStrElems elems with
    | .ok pieces => .ok (String.intercalate "," pieces)
    | .error e => .error e
  | .object props =>
    if hasOwn props "toString" then .error .notPrimitive else .ok "[object Object]"
/-- The pieces `Array.prototype.join` puts between commas, from left to
right: the empty string for `undefined` and `null`, `ToString` otherwise. -/
def toStrElems : List JSValue → Except TypeError (List String)
  | [] => .ok []
  | .undefined :: rest =>
    match toStrElems rest with
    | .ok pieces => .ok ("" :: pieces)
    | .error e => .error e
  | .null :: rest =>
    match toStrElems rest with
    | .ok pieces => .ok ("" :: pieces)
    | .error e => .error e
  | v :: rest =>
    match toStr v with
    | .error e => .error e
    | .ok piece =>
      match toStrElems rest with
      | .ok pieces => .ok (piece :: pieces)
      | .error e => .error e
end

end JSValue

open JSValue

/-- The ASCII part of `String.prototype.toUpperCase`: on a string of ASCII
characters the built-in maps `a`-`z` to `A`-`Z` and keeps the rest. Used as
the `toUpperCase` of concrete examples, whose strings are ASCII. -/
def asciiUpperCase (s : String) : String :=
  ⟨s.data.map Char.toUpper⟩

/-- The environment variables the handlers read from `process.env`. -/
structure ProcessEnv where
  ENVIRONMENT : Option String
  AWS_REGION : Option String
  NOTIFICATION_TOPIC_ARN : Option String

/-- The value of `process.env.NAME`: a string, or `undefined` when unset. -/
def envValue : Option String → JSValue
  | some s => .string s
  | none => .undefined

/-- The expression `process.env.NAME || 'fallback'`, which is always a string. -/
def envOr (v : Option String) (fallback : String) : String :=
  match v with
  | some s => if s = "" then fallback else s
  | none => fallback

namespace JSON

/-- A lower-case hexadecimal digit. -/
def hexDigit (n : Nat) : Char :=
  if n < 10 then Char.ofNat (48 + n) else Char.ofNat (87 + n)

/-- The JSON escape of one character (`QuoteJSONString`). -/
def quoteChar (c : Char) : String :=
  if c.toNat = 34 then "\\\""
  else if c.toNat = 92 then "\\\\"
  else if c.toNat = 8 then "\\b"
  else if c.toNat = 9 then "\\t"
  else if c.toNat = 10 then "\\n"
  else if c.toNat = 12 then "\\f"
  else if c.toNat = 13 then "\\r"
  else if c.toNat < 32 then
    "\\u00" ++ String.mk [hexDigit (c.toNat / 16), hexDigit (c.toNat % 16)]
  else String.singleton c

/-- A string as a JSON string literal. -/
def quote (s : String) : String :=
  "\"" ++ String.join (s.data.map quoteChar) ++ "\""

/-- The text of an array or object from the texts of its items: `lb rb` when
there is none, else the items separated by commas, one per line at the inner
indentation when `gap` is not empty. -/
def wrap (lb rb gap indent : String) (items : List String) : String :=
  if items.isEmpty then lb ++ rb
  else if gap = "" then lb ++ String.intercalate "," items ++ rb
  else
    lb ++ "\n" ++ (indent ++ gap)
      ++ String.intercalate (",\n" ++ (indent ++ gap)) items
      ++ "\n" ++ indent ++ rb

mutual
/-- The algorithm `SerializeJSONProperty`: `none` is the result `undefined`.
A finite number is printed as `ToString` prints it, any other as `null`. -/
def serialize (gap indent : String) : JSValue → Option String
  | .undefined => none
  | .null => some "null"
  | .bool b => some (if b then "true" else "false")
  | .number n => some (if n.isFinite then n.text else "null")
  | .string s => some (quote s)
  | .array elems =>
    some (wrap "[" "]" gap indent (serializeElems gap (indent ++ gap) elems))
  | .object props =>
    some (wrap "\x7b" "\x7d" gap indent (serializeProps gap (indent ++ gap) props))
/-- The items of an array: an element without a serialization is `null`. -/
def serializeElems (gap indent : String) : List JSValue → List String
  | [] => []
  | v :: rest =>
    (serialize gap indent v).getD "null" :: serializeElems gap indent rest
/-- The members of an object: a property without a serialization is left out. -/
def serializeProps (gap indent : String) : List (String × JSValue) → List String
  | [] => []
  | (k, v) :: rest =>
    match serialize gap indent v with
    | none => serializeProps gap indent rest
    | some s =>
      (quote k ++ ":" ++ (if gap = "" then "" else " ") ++ s)
        :: serializeProps gap indent rest
end

/-- The call `JSON.stringify(v, null, space)` with a numeric `space`. -/
def stringify (v : JSValue) (space : Nat) : JSValue :=
  match serialize (String.mk (List.replicate (min space 10) (Char.ofNat 32))) "" v with
  | some s => .string s
  | none => .undefined

end JSON

namespace processor

/-- The object literal of the Proton branch (processor.js lines 21-28). The
template literal of line 26 converts the two version fields with `ToString`,
the major one first, and throws where that throws. -/
def serviceDeployment (eventDetail : JSValue) (now : String) :
    Except TypeError (List (String × JSValue)) := do
  let name ← eventDetail.read "name"
  let status ← eventDetail.read "status"
  let deploymentStatus ← eventDetail.read "deploymentStatus"
  let templateName ← eventDetail.read "templateName"
  let major ← eventDetail.read "templateMajorVersion"
  let majorText ← major.toStr
  let minor ← eventDetail.read "templateMinorVersion"
  let minorText ← minor.toStr
  let succeededAt ← eventDetail.read "lastDeploymentSucceededAt"
  pure [("serviceName", name),
        ("status", status),
        ("deploymentStatus", deploymentStatus),
        ("templateName", templateName),
        ("templateVersion", .string (majorText ++ "." ++ minorText)),
        ("timestamp", succeededAt.or (.string now))]

/-- The object literal of the other branch (processor.js lines 33-38). -/
def generic (eventSource eventType eventDetail : JSValue) (now : String) :
    List (String × JSValue) :=
  [("eventSource", eventSource),
   ("eventType", eventType),
   ("timestamp", .string now),
   ("rawDetail", eventDetail)]

/-- The handler of processor.js: the returned object, or the error thrown
(the `catch` of line 53 rethrows it). -/
def handler (env : ProcessEnv) (now : String) (event : JSValue) :
    Except TypeError JSValue := do
  let eventSource := (← event.read "source").or (.string "unknown")
  let eventType := (← event.read "detail-type").or (.string "unknown")
  let eventDetail := (← event.read "detail").or (.object [])
  let processedData ←
    if eventSource.strictEqString "aws.proton"
        && eventType.strictEqString "Proton Service Status Change" then
      serviceDeployment eventDetail now
    else
      pure (generic eventSource eventType eventDetail now)
  let processedData :=
    assign processedData "environment" (.string (envOr env.ENVIRONMENT "unknown"))
  let processedData :=
    assign processedData "region" (.string (envOr env.AWS_REGION "unknown"))
  pure (.object [("statusCode", .number (.ofInt 200)),
                 ("processedData", .object processedData),
                 ("rawEvent", event)])

end processor

/-- The request object handed to `sns.publish`. -/
structure PublishParams where
  TopicArn : JSValue
  Subject : String
  Message : JSValue

/-- What the notifier handler can throw: a `TypeError` of its own, or the
error `e` the publish call rejected with. -/
inductive Thrown (ε : Type) where
  | typeError (t : TypeError)
  | rejected (e : ε)

/-- One invocation of the notifier: the requests handed to `sns.publish`, in
order, and the value returned or the error thrown. -/
structure Run (ε : Type) where
  published : List PublishParams
  result : Except (Thrown ε) JSValue

namespace notifier

/-- The condition `processedData.serviceName && processedData.deploymentStatus`
(notifier.js line 22), as the branch taken. -/
def isServiceDeployment (processedData : JSValue) : Except TypeError Bool := do
  if (← processedData.read "serviceName").truthy then
    pure (← processedData.read "deploymentStatus").truthy
  else
    pure false

/-- The chain `processedData[key] || rawEvent[rawKey] || 'Unknown'`
(notifier.js lines 44 and 45). -/
def firstPresent (processedData : JSValue) (key : String) (rawEvent : JSValue)
    (rawKey : String) : Except TypeError JSValue := do
  let own ← processedData.read key
  if own.truthy then pure own
  else
    pure ((← rawEvent.read rawKey).or (.string "Unknown"))

/-- The subject and message the handler builds (notifier.js lines 15-50), or
the error thrown on the way; `toUpperCase` is `String.prototype.toUpperCase`
and `nowFormat` the clock reading of line 46. The template literals of lines
27 and 30 convert `serviceName` and `status` with `ToString`. -/
def notification (toUpperCase : String → String) (env : ProcessEnv)
    (nowFormat : String) (event : JSValue) : Except TypeError (String × JSValue) := do
  let processedData := (← event.read "processedData").or (.object [])
  let rawEvent := (← event.read "rawEvent").or (.object [])
  let environment := envOr env.ENVIRONMENT "unknown"
  if ← isServiceDeployment processedData then
    let status ← processedData.read "deploymentStatus"
    let serviceName ← processedData.read "serviceName"
    let serviceText ← serviceName.toStr
    let statusText ← status.toStr
    let subject :=
      "[" ++ toUpperCase environment ++ "] Proton Service " ++ serviceText
        ++ " - " ++ statusText
    let titleText ← status.toStr
    let templateName ← processedData.read "templateName"
    let templateVersion ← processedData.read "templateVersion"
    let timestamp ← processedData.read "timestamp"
    pure (subject,
      .object [("title", .string ("Service Deployment " ++ titleText)),
               ("service", serviceName),
               ("status", status),
               ("template", templateName),
               ("version", templateVersion),
               ("timestamp", timestamp),
               ("environment", .string environment)])
  else
    let subject := "[" ++ toUpperCase environment ++ "] Platform Event Notification"
    let eventType ← firstPresent processedData "eventType" rawEvent "detail-type"
    let source ← firstPresent processedData "eventSource" rawEvent "source"
    pure (subject,
      .object [("title", .string "Platform Event Processed"),
               ("eventType", eventType),
               ("source", source),
               ("timestamp", .string nowFormat),
               ("details", processedData),
               ("environment", .string environment)])

/-- The handler of notifier.js. `publish` stands for
`sns.publish(params).promise()`; `nowFormat` and `nowReceipt` are the clock
readings of lines 46 and 69. An error thrown before line 60 leaves publish
uncalled; the `catch` of line 72 rethrows every error. -/
def handler {ε : Type} (toUpperCase : String → String) (env : ProcessEnv)
    (publish : PublishParams → Except ε Unit)
    (nowFormat nowReceipt : String) (event : JSValue) : Run ε :=
  match notification toUpperCase env nowFormat event with
  | .error t => ⟨[], .error (.typeError t)⟩
  | .ok (subject, message) =>
    let params : PublishParams :=
      ⟨envValue env.NOTIFICATION_TOPIC_ARN, subject, JSON.stringify message 2⟩
    match publish params with
    | .error e => ⟨[params], .error (.rejected e)⟩
    | .ok _ =>
      ⟨[params],
        .ok (.object [("statusCode", .number (.ofInt 200)),
                      ("body", .string "Notification sent successfully"),
                      ("notificationDetails",
                        .object [("subject", .string subject),
                                 ("topicArn", envValue env.NOTIFICATION_TOPIC_ARN),
                                 ("timestamp", .string nowReceipt)])])⟩

end notifier

/-- The notifier run on what the processor returned for `raw`, both under the
same `process.env`; the processor's error, if any, ends the pipeline. -/
def pipeline {ε : Type} (toUpperCase : String → String) (env : ProcessEnv)
    (publish : PublishParams → Except ε Unit)
    (now nowFormat nowReceipt : String) (raw : JSValue) : Run ε :=
  match processor.handler env now raw with
  | .error t => ⟨[], .error (.typeError t)⟩
  | .ok out => notifier.handler toUpperCase env publish nowFormat nowReceipt out

/-! ## The values the processor returns, written out -/

/-- The `processedData` object of the Proton branch for detail `d`, with
`version` the text of its templateVersion. -/
def protonData (env : ProcessEnv) (now : String) (d : JSValue) (version : String) :
    JSValue :=
  .object [("serviceName", d.get "name"),
           ("status", d.get "status"),
           ("deploymentStatus", d.get "deploymentStatus"),
           ("templateName", d.get "templateName"),
           ("templateVersion", .string version),
           ("timestamp", (d.get "lastDeploymentSucceededAt").or (.string now)),
           ("environment", .string (envOr env.ENVIRONMENT "unknown")),
           ("region", .string (envOr env.AWS_REGION "unknown"))]

/-- The `processedData` object of the other branch for the raw `source`,
`detail-type` and `detail`. -/
def genericData (env : ProcessEnv) (now : String) (src ty d : JSValue) : JSValue :=
  .object [("eventSource", src.or (.string "unknown")),
           ("eventType", ty.or (.string "unknown")),
           ("timestamp", .string now),
           ("rawDetail", d.or (.object [])),
           ("environment", .string (envOr env.ENVIRONMENT "unknown")),
           ("region", .string (envOr env.AWS_REGION "unknown"))]

/-- The object the processor returns around `processedData`. -/
def response (processedData event : JSValue) : JSValue :=
  .object [("statusCode", .number (.ofInt 200)),
           ("processedData", processedData),
           ("rawEvent", event)]

/-- The body of the generic notification for processedData `pd` and raw event
`raw` (notifier.js lines 42-49). -/
def genericBody (pd raw : JSValue) (nowFormat environment : String) : JSValue :=
  .object [("title", .string "Platform Event Processed"),
           ("eventType", (pd.get "eventType").or
              ((raw.get "detail-type").or (.string "Unknown"))),
           ("source", (pd.get "eventSource").or
              ((raw.get "source").or (.string "Unknown"))),
           ("timestamp", .string nowFormat),
           ("details", pd.or (.object [])),
           ("environment", .string environment)]

/-- The body of the service-deployment notification for processedData `pd`,
with `statusText` the text of its deploymentStatus (notifier.js lines 29-37). -/
def serviceBody (pd : JSValue) (statusText environment : String) : JSValue :=
  .object [("title", .string ("Service Deployment " ++ statusText)),
           ("service", pd.get "serviceName"),
           ("status", pd.get "deploymentStatus"),
           ("template", pd.get "templateName"),
           ("version", pd.get "templateVersion"),
           ("timestamp", pd.get "timestamp"),
           ("environment", .string environment)]

/-! ## Concrete events -/

/-- Scenario A: a Proton service status change for `orders-svc`. -/
def scenarioA : List (String × JSValue) :=
  [("source", .string "aws.proton"),
   ("detail-type", .string "Proton Service Status Change"),
   ("detail", .object [("name", .string "orders-svc"),
                       ("status", .string "ACTIVE"),
                       ("deploymentStatus", .string "SUCCEEDED"),
                       ("templateName", .string "lambda-service"),
                       ("templateMajorVersion", .number (.ofInt 1)),
                       ("templateMinorVersion", .number (.ofInt 2)),
                       ("lastDeploymentSucceededAt", .string "2024-01-01T00:00:00Z")])]

/-- Scenario B: an event of another source. -/
def scenarioB : List (String × JSValue) :=
  [("source", .string "custom.app"),
   ("detail-type", .string "Something"),
   ("detail", .object [("foo", .string "bar")])]

/-- An envelope whose source and detail-type are empty strings and which has
no detail. -/
def blankEnvelope : List (String × JSValue) :=
  [("source", .string ""), ("detail-type", .string "")]

/-- A Proton service status change without a detail. -/
def protonNoDetail : List (String × JSValue) :=
  [("source", .string "aws.proton"),
   ("detail-type", .string "Proton Service Status Change")]

/-- A Proton service status change whose templateMajorVersion is an object
with an own property `toString`. -/
def protonOddVersion : List (String × JSValue) :=
  [("source", .string "aws.proton"),
   ("detail-type", .string "Proton Service Status Change"),
   ("detail", .object [("name", .string "orders-svc"),
                       ("status", .string "ACTIVE"),
                       ("deploymentStatus", .string "SUCCEEDED"),
                       ("templateName", .string "lambda-service"),
                       ("templateMajorVersion", .object [("toString", .string "x")]),
                       ("templateMinorVersion", .number (.ofInt 2)),
                       ("lastDeploymentSucceededAt", .string "2024-01-01T00:00:00Z")])]

/-- A Proton service status change whose name is an object with an own
property `toString`. -/
def protonOddName : List (String × JSValue) :=
  [("source", .string "aws.proton"),
   ("detail-type", .string "Proton Service Status Change"),
   ("detail", .object [("name", .object [("toString", .null)]),
                       ("status", .string "ACTIVE"),
                       ("deploymentStatus", .string "SUCCEEDED"),
                       ("templateName", .string "lambda-service"),
                       ("templateMajorVersion", .number (.ofInt 1)),
                       ("templateMinorVersion", .number (.ofInt 2)),
                       ("lastDeploymentSucceededAt", .string "2024-01-01T00:00:00Z")])]

/-- A Proton service status change whose lastDeploymentSucceededAt is an
empty array. -/
def protonEmptyArrayTimestamp : List (String × JSValue) :=
  [("source", .string "aws.proton"),
   ("detail-type", .string "Proton Service Status Change"),
   ("detail", .object [("name", .string "orders-svc"),
                       ("status", .string "ACTIVE"),
                       ("deploymentStatus", .string "SUCCEEDED"),
                       ("templateName", .string "lambda-service"),
                       ("templateMajorVersion", .number (.ofInt 1)),
                       ("templateMinorVersion", .number (.ofInt 2)),
                       ("lastDeploymentSucceededAt", .array [])])]

/-- An event of another source whose detail carries its own
lastDeploymentSucceededAt. -/
def otherWithTimestamp : List (String × JSValue) :=
  [("source", .string "custom.app"),
   ("detail-type", .string "Something"),
   ("detail", .object [("lastDeploymentSucceededAt", .string "2024-01-01T00:00:00Z")])]

/-- An event of another source whose detail carries name, serviceName and
deploymentStatus. -/
def otherWithDeploymentFields : List (String × JSValue) :=
  [("source", .string "custom.app"),
   ("detail-type", .string "Proton Service Status Change"),
   ("detail", .object [("name", .string "orders-svc"),
                       ("serviceName", .string "orders-svc"),
                       ("deploymentStatus", .string "SUCCEEDED")])]

/-- A `process.env` with `ENVIRONMENT=prod` and a topic. -/
def prodEnv : ProcessEnv :=
  ⟨some "prod", some "ap-southeast-2", some "arn:aws:sns:ap-southeast-2:123456789012:demo"⟩

/-- A `process.env` with `ENVIRONMENT=prod` and nothing else set. -/
def prodEnvBare : ProcessEnv :=
  ⟨some "prod", none, none⟩

/-- A `process.env` with nothing set. -/
def unsetEnv : ProcessEnv :=
  ⟨none, none, none⟩

/-- A notifier input whose processedData is a service deployment with status
ACTIVE and deploymentStatus SUCCEEDED. -/
def deploymentInput : List (String × JSValue) :=
  [("statusCode", .number (.ofInt 200)),
   ("processedData", .object [("serviceName", .string "orders-svc"),
                              ("status", .string "ACTIVE"),
                              ("deploymentStatus", .string "SUCCEEDED"),
                              ("templateName", .string "lambda-service"),
                              ("templateVersion", .string "1.2"),
                              ("timestamp", .string "2024-01-01T00:00:00Z"),
                              ("environment", .string "prod"),
                              ("region", .string "ap-southeast-2")]),
   ("rawEvent", .object scenarioA)]

/-- A notifier input whose processedData is a service deployment with status
ACTIVE and an empty deploymentStatus. -/
def deploymentInputNoStatus : List (String × JSValue) :=
  [("statusCode", .number (.ofInt 200)),
   ("processedData", .object [("serviceName", .string "orders-svc"),
                              ("status", .string "ACTIVE"),
                              ("deploymentStatus", .string ""),
                              ("templateName", .string "lambda-service"),
                              ("templateVersion", .string "1.2"),
                              ("timestamp", .string "2024-01-01T00:00:00Z"),
                              ("environment", .string "prod"),
                              ("region", .string "ap-southeast-2")]),
   ("rawEvent", .object scenarioA)]

/-- A notifier input whose processedData has, as serviceName, an object with
an own property `toString`, and deploymentStatus SUCCEEDED. -/
def deploymentInputOddName : List (String × JSValue) :=
  [("processedData", .object [("serviceName", .object [("toString", .null)]),
                              ("status", .string "ACTIVE"),
                              ("deploymentStatus", .string "SUCCEEDED"),
                              ("templateName", .string "lambda-service"),
                              ("templateVersion", .string "1.2"),
                              ("timestamp", .string "2024-01-01T00:00:00Z")]),
   ("rawEvent", .object scenarioA)]

/-- A notifier input whose templateName holds a quote, a backslash, a line
feed and the control character U+0001, and whose templateVersion is the
number 1e21. -/
def deploymentInputEscapes : List (String × JSValue) :=
  [("processedData", .object [("serviceName", .string "orders-svc"),
                              ("status", .string "ACTIVE"),
                              ("deploymentStatus", .string "SUCCEEDED"),
                              ("templateName", .string "a\"b\\c\n\x01"),
                              ("templateVersion", .number ⟨"1e+21", false, true⟩),
                              ("timestamp", .string "2024-01-01T00:00:00Z")]),
   ("rawEvent", .object scenarioA)]

/-- A notifier input whose processedData is the generic one of Scenario B. -/
def genericInput : List (String × JSValue) :=
  [("statusCode", .number (.ofInt 200)),
   ("processedData", .object [("eventSource", .string "custom.app"),
                              ("eventType", .string "Something"),
                              ("timestamp", .string "2025-05-01T00:00:00.000Z"),
                              ("rawDetail", .object [("foo", .string "bar")]),
                              ("environment", .string "prod"),
                              ("region", .string "ap-southeast-2")]),
   ("rawEvent", .object scenarioB)]

/-- A notifier input whose processedData is generic with an empty eventType
and eventSource, next to the raw event of Scenario B. -/
def genericInputBlank : List (String × JSValue) :=
  [("processedData", .object [("eventSource", .string ""),
                              ("eventType", .string ""),
                              ("timestamp", .string "2025-05-01T00:00:00.000Z"),
                              ("rawDetail", .object []),
                              ("environment", .string "unknown"),
                              ("region", .string "unknown")]),
   ("rawEvent", .object scenarioB)]

/-- A publish call that always succeeds. -/
def publishOk : PublishParams → Except String Unit :=
  fun _ => .ok ()

/-- A publish call that always fails with the given error. -/
def publishFail (e : String) : PublishParams → Except String Unit :=
  fun _ => .error e

/-! ## Property reads and defaults -/

theorem read_of_not_nullish (v : JSValue) (key : String) (h : v.isNullish = false) :
    v.read key = pure (v.get key) := by
  cases v <;> first | rfl | simp [JSValue.isNullish] at h

theorem read_of_nullish (v : JSValue) (key : String) (h : v.isNullish = true) :
    v.read key = .error (.nullishRead key) := by
  cases v <;> first | rfl | simp [JSValue.isNullish] at h

theorem get_of_not_truthy (x : JSValue) (key : String) (h : x.truthy = false) :
    x.get key = .undefined := by
  cases x <;> simp_all [JSValue.truthy, JSValue.get]

theorem or_of_truthy (x y : JSValue) (h : x.truthy = true) : x.or y = x := by
  simp [JSValue.or, h]

theorem or_of_not_truthy (x y : JSValue) (h : x.truthy = false) : x.or y = y := by
  simp [JSValue.or, h]

theorem get_or_empty (x : JSValue) (key : String) :
    (x.or (.object [])).get key = x.get key := by
  cases h : x.truthy
  · rw [or_of_not_truthy x _ h, get_of_not_truthy x key h]; rfl
  · rw [or_of_truthy x _ h]

theorem read_of_truthy (x : JSValue) (key : String) (h : x.truthy = true) :
    x.read key = pure (x.get key) := by
  cases x <;> first | rfl | simp [JSValue.truthy] at h

theorem read_or_empty (x : JSValue) (key : String) :
    (x.or (.object [])).read key = pure (x.get key) := by
  rw [← get_or_empty x key]
  apply read_of_truthy
  cases h : x.truthy
  · rw [or_of_not_truthy x _ h]; rfl
  · rw [or_of_truthy x _ h]; exact h

theorem strictEqString_iff (v : JSValue) (lit : String) :
    v.strictEqString lit = true ↔ v = .string lit := by
  cases v <;> simp [JSValue.strictEqString]

theorem or_unknown_eq_string (x : JSValue) (lit : String) (h : lit ≠ "unknown")
    (hl : lit ≠ "") :
    x.or (.string "unknown") = .string lit ↔ x = .string lit := by
  constructor
  · intro hx
    cases ht : x.truthy
    · rw [or_of_not_truthy x _ ht] at hx
      simp at hx
      exact absurd hx.symm h
    · rwa [or_of_truthy x _ ht] at hx
  · intro hx
    subst hx
    apply or_of_truthy
    simpa [JSValue.truthy] using hl

theorem or_unknown_truthy (x : JSValue) : (x.or (.string "unknown")).truthy = true := by
  cases h : x.truthy
  · rw [or_of_not_truthy x _ h]; rfl
  · rw [or_of_truthy x _ h]; exact h

theorem truthy_string (s : String) (h : s ≠ "") : (JSValue.string s).truthy = true := by
  simpa [JSValue.truthy] using h

theorem error_bind {α β : Type} (e : TypeError) (f : α → Except TypeError β) :
    ((Except.error e : Except TypeError α) >>= f) = .error e := rfl

theorem ok_bind {α β : Type} (a : α) (f : α → Except TypeError β) :
    ((Except.ok a : Except TypeError α) >>= f) = f a := rfl

/-! ## Which values convert to a string -/

theorem toStr_undefined : JSValue.undefined.toStr = .ok "undefined" := rfl

theorem toStr_null : JSValue.null.toStr = .ok "null" := rfl

theorem toStr_string (s : String) : (JSValue.string s).toStr = .ok s := rfl

theorem toStr_number (n : JSNumber) : (JSValue.number n).toStr = .ok n.text := rfl

theorem toStr_bool (b : Bool) :
    (JSValue.bool b).toStr = .ok (if b then "true" else "false") := rfl

theorem toStr_object_own (props : List (String × JSValue))
    (h : hasOwn props "toString" = true) :
    (JSValue.object props).toStr = .error .notPrimitive := by
  simp [JSValue.toStr, h]

theorem toStr_object_plain (props : List (String × JSValue))
    (h : hasOwn props "toString" = false) :
    (JSValue.object props).toStr = .ok "[object Object]" := by
  simp [JSValue.toStr, h]

/-! ## The processor on each branch -/

theorem serviceDeployment_ok (x : JSValue) (now major minor : String)
    (hmajor : (x.get "templateMajorVersion").toStr = .ok major)
    (hminor : (x.get "templateMinorVersion").toStr = .ok minor) :
    processor.serviceDeployment (x.or (.object [])) now
      = .ok [("serviceName", x.get "name"),
           ("status", x.get "status"),
           ("deploymentStatus", x.get "deploymentStatus"),
           ("templateName", x.get "templateName"),
           ("templateVersion", .string (major ++ "." ++ minor)),
           ("timestamp", (x.get "lastDeploymentSucceededAt").or (.string now))] := by
  simp only [processor.serviceDeployment, read_or_empty, pure_bind, hmajor, hminor, ok_bind]
  rfl

theorem serviceDeployment_error_major (x : JSValue) (now : String) (err : TypeError)
    (hmajor : (x.get "templateMajorVersion").toStr = .error err) :
    processor.serviceDeployment (x.or (.object [])) now = .error err := by
  simp only [processor.serviceDeployment, read_or_empty, pure_bind, hmajor, error_bind]

theorem serviceDeployment_error_minor (x : JSValue) (now major : String) (err : TypeError)
    (hmajor : (x.get "templateMajorVersion").toStr = .ok major)
    (hminor : (x.get "templateMinorVersion").toStr = .error err) :
    processor.serviceDeployment (x.or (.object [])) now = .error err := by
  simp only [processor.serviceDeployment, read_or_empty, pure_bind, hmajor, hminor,
    ok_bind, error_bind]

theorem handler_nullish (env : ProcessEnv) (now : String) (event : JSValue)
    (hev : event.isNullish = true) :
    processor.handler env now event = .error (.nullishRead "source") := by
  simp only [processor.handler, read_of_nullish event _ hev, error_bind]

theorem handler_proton_event (env : ProcessEnv) (now : String) (event : JSValue)
    (major minor : String)
    (hev : event.isNullish = false)
    (hs : event.get "source" = .string "aws.proton")
    (ht : event.get "detail-type" = .string "Proton Service Status Change")
    (hmajor : ((event.get "detail").get "templateMajorVersion").toStr = .ok major)
    (hminor : ((event.get "detail").get "templateMinorVersion").toStr = .ok minor) :
    processor.handler env now event
      = .ok (response (protonData env now (event.get "detail") (major ++ "." ++ minor))
          event) := by
  have h1 : (JSValue.string "aws.proton").or (.string "unknown") = .string "aws.proton" := rfl
  have h2 : (JSValue.string "Proton Service Status Change").or (.string "unknown")
      = .string "Proton Service Status Change" := rfl
  simp only [processor.handler, read_of_not_nullish event _ hev, pure_bind, hs, ht, h1, h2,
    serviceDeployment_ok _ now major minor hmajor hminor]
  rfl

theorem handler_proton_error_event (env : ProcessEnv) (now : String) (event : JSValue)
    (err : TypeError)
    (hev : event.isNullish = false)
    (hs : event.get "source" = .string "aws.proton")
    (ht : event.get "detail-type" = .string "Proton Service Status Change")
    (hfail : processor.serviceDeployment ((event.get "detail").or (.object [])) now
              = .error err) :
    processor.handler env now event = .error err := by
  have h1 : (JSValue.string "aws.proton").or (.string "unknown") = .string "aws.proton" := rfl
  have h2 : (JSValue.string "Proton Service Status Change").or (.string "unknown")
      = .string "Proton Service Status Change" := rfl
  simp only [processor.handler, read_of_not_nullish event _ hev, pure_bind, hs, ht, h1, h2,
    hfail]
  rfl

theorem handler_generic_event (env : ProcessEnv) (now : String) (event : JSValue)
    (hev : event.isNullish = false)
    (h : ¬ (event.get "source" = .string "aws.proton"
          ∧ event.get "detail-type" = .string "Proton Service Status Change")) :
    processor.handler env now event
      = .ok (response (genericData env now (event.get "source")
          (event.get "detail-type") (event.get "detail")) event) := by
  have hc : (((event.get "source").or (.string "unknown")).strictEqString "aws.proton"
        && ((event.get "detail-type").or (.string "unknown")).strictEqString
            "Proton Service Status Change") = false := by
    rw [Bool.and_eq_false_iff]
    by_contra hn
    push_neg at hn
    simp only [ne_eq, Bool.not_eq_false, strictEqString_iff] at hn
    rw [or_unknown_eq_string _ _ (by decide) (by decide),
      or_unknown_eq_string _ _ (by decide) (by decide)] at hn
    exact h hn
  simp only [processor.handler, read_of_not_nullish event _ hev, pure_bind, hc]
  rfl

theorem handler_proton (env : ProcessEnv) (now : String) (props : List (String × JSValue))
    (major minor : String)
    (hs : lookup props "source" = .string "aws.proton")
    (ht : lookup props "detail-type" = .string "Proton Service Status Change")
    (hmajor : ((lookup props "detail").get "templateMajorVersion").toStr = .ok major)
    (hminor : ((lookup props "detail").get "templateMinorVersion").toStr = .ok minor) :
    processor.handler env now (.object props)
      = .ok (response (protonData env now (lookup props "detail") (major ++ "." ++ minor))
          (.object props)) :=
  handler_proton_event env now (.object props) major minor rfl hs ht hmajor hminor

theorem handler_proton_error (env : ProcessEnv) (now : String)
    (props : List (String × JSValue)) (err : TypeError)
    (hs : lookup props "source" = .string "aws.proton")
    (ht : lookup props "detail-type" = .string "Proton Service Status Change")
    (hfail : processor.serviceDeployment ((lookup props "detail").or (.object [])) now
              = .error err) :
    processor.handler env now (.object props) = .error err :=
  handler_proton_error_event env now (.object props) err rfl hs ht hfail

theorem handler_generic (env : ProcessEnv) (now : String) (props : List (String × JSValue))
    (h : ¬ (lookup props "source" = .string "aws.proton"
          ∧ lookup props "detail-type" = .string "Proton Service Status Change")) :
    processor.handler env now (.object props)
      = .ok (response (genericData env now (lookup props "source")
          (lookup props "detail-type") (lookup props "detail")) (.object props)) :=
  handler_generic_event env now (.object props) rfl h

/-! ## The notifier on each branch -/

theorem isServiceDeployment_or_empty (pd : JSValue) :
    notifier.isServiceDeployment (pd.or (.object []))
      = pure ((pd.get "serviceName").truthy && (pd.get "deploymentStatus").truthy) := by
  simp only [notifier.isServiceDeployment, read_or_empty, pure_bind]
  cases (pd.get "serviceName").truthy <;> simp

theorem firstPresent_or_empty (pd raw : JSValue) (key rawKey : String) :
    notifier.firstPresent (pd.or (.object [])) key (raw.or (.object [])) rawKey
      = pure ((pd.get key).or ((raw.get rawKey).or (.string "Unknown"))) := by
  simp only [notifier.firstPresent, read_or_empty, pure_bind]
  cases h : (pd.get key).truthy <;> simp [JSValue.or, h]

theorem notification_nullish (up : String → String) (env : ProcessEnv) (nowFormat : String)
    (event : JSValue) (hev : event.isNullish = true) :
    notifier.notification up env nowFormat event = .error (.nullishRead "processedData") := by
  simp only [notifier.notification, read_of_nullish event _ hev, error_bind]

theorem notification_service_event (up : String → String) (env : ProcessEnv)
    (nowFormat : String) (event : JSValue) (nameText statusText : String)
    (hev : event.isNullish = false)
    (hn : ((event.get "processedData").get "serviceName").truthy = true)
    (hd : ((event.get "processedData").get "deploymentStatus").truthy = true)
    (hname : ((event.get "processedData").get "serviceName").toStr = .ok nameText)
    (hstatus : ((event.get "processedData").get "deploymentStatus").toStr = .ok statusText) :
    notifier.notification up env nowFormat event
      = .ok ("[" ++ up (envOr env.ENVIRONMENT "unknown") ++ "] Proton Service "
              ++ nameText ++ " - " ++ statusText,
          serviceBody (event.get "processedData") statusText
            (envOr env.ENVIRONMENT "unknown")) := by
  simp only [notifier.notification, read_of_not_nullish event _ hev, pure_bind,
    isServiceDeployment_or_empty, read_or_empty, hn, hd, hname, hstatus, ok_bind,
    Bool.and_self, if_true]
  rfl

theorem notification_service_error_name (up : String → String) (env : ProcessEnv)
    (nowFormat : String) (event : JSValue) (err : TypeError)
    (hev : event.isNullish = false)
    (hn : ((event.get "processedData").get "serviceName").truthy = true)
    (hd : ((event.get "processedData").get "deploymentStatus").truthy = true)
    (hname : ((event.get "processedData").get "serviceName").toStr = .error err) :
    notifier.notification up env nowFormat event = .error err := by
  simp only [notifier.notification, read_of_not_nullish event _ hev, pure_bind,
    isServiceDeployment_or_empty, read_or_empty, hn, hd, hname, error_bind,
    Bool.and_self, if_true]

theorem notification_service_error_status (up : String → String) (env : ProcessEnv)
    (nowFormat : String) (event : JSValue) (nameText : String) (err : TypeError)
    (hev : event.isNullish = false)
    (hn : ((event.get "processedData").get "serviceName").truthy = true)
    (hd : ((event.get "processedData").get "deploymentStatus").truthy = true)
    (hname : ((event.get "processedData").get "serviceName").toStr = .ok nameText)
    (hstatus : ((event.get "processedData").get "deploymentStatus").toStr = .error err) :
    notifier.notification up env nowFormat event = .error err := by
  simp only [notifier.notification, read_of_not_nullish event _ hev, pure_bind,
    isServiceDeployment_or_empty, read_or_empty, hn, hd, hname, hstatus, ok_bind,
    error_bind, Bool.and_self, if_true]

theorem notification_generic_event (up : String → String) (env : ProcessEnv)
    (nowFormat : String) (event : JSValue)
    (hev : event.isNullish = false)
    (h : (((event.get "processedData").get "serviceName").truthy
          && ((event.get "processedData").get "deploymentStatus").truthy) = false) :
    notifier.notification up env nowFormat event
      = .ok ("[" ++ up (envOr env.ENVIRONMENT "unknown") ++ "] Platform Event Notification",
          genericBody (event.get "processedData") (event.get "rawEvent") nowFormat
            (envOr env.ENVIRONMENT "unknown")) := by
  simp only [notifier.notification, read_of_not_nullish event _ hev, pure_bind,
    isServiceDeployment_or_empty, firstPresent_or_empty, h]
  rfl

/-! ## The notifier handler around the publish call -/

theorem handler_published {ε : Type} (up : String → String) (env : ProcessEnv)
    (publish : PublishParams → Except ε Unit) (nowFormat nowReceipt : String)
    (event : JSValue) (subject : String) (body : JSValue)
    (h : notifier.notification up env nowFormat event = .ok (subject, body)) :
    (notifier.handler up env publish nowFormat nowReceipt event).published
      = [⟨envValue env.NOTIFICATION_TOPIC_ARN, subject, JSON.stringify body 2⟩] := by
  simp only [notifier.handler, h]
  split <;> rfl

theorem handler_result_ok {ε : Type} (up : String → String) (env : ProcessEnv)
    (publish : PublishParams → Except ε Unit) (nowFormat nowReceipt : String)
    (event : JSValue) (subject : String) (body : JSValue)
    (h : notifier.notification up env nowFormat event = .ok (subject, body))
    (hp : publish ⟨envValue env.NOTIFICATION_TOPIC_ARN, subject, JSON.stringify body 2⟩
            = .ok ()) :
    (notifier.handler up env publish nowFormat nowReceipt event).result
      = .ok (.object [("statusCode", .number (.ofInt 200)),
                      ("body", .string "Notification sent successfully"),
                      ("notificationDetails",
                        .object [("subject", .string subject),
                                 ("topicArn", envValue env.NOTIFICATION_TOPIC_ARN),
                                 ("timestamp", .string nowReceipt)])]) := by
  simp only [notifier.handler, h, hp]

theorem handler_result_error {ε : Type} (up : String → String) (env : ProcessEnv)
    (publish : PublishParams → Except ε Unit) (nowFormat nowReceipt : String)
    (event : JSValue) (subject : String) (body : JSValue) (e : ε)
    (h : notifier.notification up env nowFormat event = .ok (subject, body))
    (hp : publish ⟨envValue env.NOTIFICATION_TOPIC_ARN, subject, JSON.stringify body 2⟩
            = .error e) :
    (notifier.handler up env publish nowFormat nowReceipt event).result
      = .error (.rejected e) := by
  simp only [notifier.handler, h, hp]

theorem handler_of_format_error {ε : Type} (up : String → String) (env : ProcessEnv)
    (publish : PublishParams → Except ε Unit) (nowFormat nowReceipt : String)
    (event : JSValue) (err : TypeError)
    (h : notifier.notification up env nowFormat event = .error err) :
    notifier.handler up env publish nowFormat nowReceipt event
      = ⟨[], .error (.typeError err)⟩ := by
  simp only [notifier.handler, h]

theorem pipeline_of_ok {ε : Type} (up : String → String) (env : ProcessEnv)
    (publish : PublishParams → Except ε Unit) (now nowFormat nowReceipt : String)
    (raw out : JSValue) (h : processor.handler env now raw = .ok out) :
    pipeline up env publish now nowFormat nowReceipt raw
      = notifier.handler up env publish nowFormat nowReceipt out := by
  simp only [pipeline, h]

theorem pipeline_of_error {ε : Type} (up : String → String) (env : ProcessEnv)
    (publish : PublishParams → Except ε Unit) (now nowFormat nowReceipt : String)
    (raw : JSValue) (err : TypeError) (h : processor.handler env now raw = .error err) :
    pipeline up env publish now nowFormat nowReceipt raw
      = ⟨[], .error (.typeError err)⟩ := by
  simp only [pipeline, h]

theorem handler_proton_inv (env : ProcessEnv) (now : String)
    (props : List (String × JSValue)) (out : JSValue)
    (hs : lookup props "source" = .string "aws.proton")
    (ht : lookup props "detail-type" = .string "Proton Service Status Change")
    (h : processor.handler env now (.object props) = .ok out) :
    ∃ major minor,
      ((lookup props "detail").get "templateMajorVersion").toStr = .ok major
      ∧ ((lookup props "detail").get "templateMinorVersion").toStr = .ok minor
      ∧ out = response (protonData env now (lookup props "detail") (major ++ "." ++ minor))
          (.object props) := by
  cases hmajor : ((lookup props "detail").get "templateMajorVersion").toStr with
  | error err =>
    rw [handler_proton_error env now props err hs ht
      (serviceDeployment_error_major _ now err hmajor)] at h
    cases h
  | ok major =>
    cases hminor : ((lookup props "detail").get "templateMinorVersion").toStr with
    | error err =>
      rw [handler_proton_error env now props err hs ht
        (serviceDeployment_error_minor _ now major err hmajor hminor)] at h
      cases h
    | ok minor =>
      rw [handler_proton env now props major minor hs ht hmajor hminor] at h
      exact ⟨major, minor, rfl, rfl, (Except.ok.inj h).symm⟩

/-! ## Claims about the processor -/

/-- C1 as stated fails: on a Proton service status change whose
templateMajorVersion is an object with an own property toString, the template
literal of the Proton branch throws a TypeError, and the handler returns no
processedData at all. -/
theorem C1_counterexample :
    lookup protonOddVersion "source" = .string "aws.proton"
    ∧ lookup protonOddVersion "detail-type" = .string "Proton Service Status Change"
    ∧ (lookup protonOddVersion "detail").get "templateMajorVersion"
        = .object [("toString", .string "x")]
    ∧ processor.handler prodEnv "2025-05-01T00:00:00.000Z" (.object protonOddVersion)
        = .error .notPrimitive :=
  ⟨rfl, rfl, rfl, rfl⟩

/-- C1, amended: for a raw event whose source is "aws.proton" and whose
detail-type is "Proton Service Status Change": when templateMajorVersion and
templateMinorVersion both convert to strings, the processor returns a
processedData object whose serviceName, status, deploymentStatus and
templateName are the detail's name, status, deploymentStatus and
templateName, whose templateVersion is the text of templateMajorVersion, one
dot and the text of templateMinorVersion, and which has no eventSource,
eventType or rawDetail property; when one of the two does not convert, the
handler throws that TypeError. -/
theorem C1_proton_processedData (env : ProcessEnv) (now : String)
    (props : List (String × JSValue))
    (hs : lookup props "source" = .string "aws.proton")
    (ht : lookup props "detail-type" = .string "Proton Service Status Change") :
    (∀ major minor,
      ((lookup props "detail").get "templateMajorVersion").toStr = .ok major →
      ((lookup props "detail").get "templateMinorVersion").toStr = .ok minor →
      ∃ out pd, processor.handler env now (.object props) = .ok out
        ∧ out.get "processedData" = .object pd
        ∧ lookup pd "serviceName" = (lookup props "detail").get "name"
        ∧ lookup pd "status" = (lookup props "detail").get "status"
        ∧ lookup pd "deploymentStatus" = (lookup props "detail").get "deploymentStatus"
        ∧ lookup pd "templateName" = (lookup props "detail").get "templateName"
        ∧ lookup pd "templateVersion" = .string (major ++ "." ++ minor)
        ∧ pd.map Prod.fst
            = ["serviceName", "status", "deploymentStatus", "templateName",
               "templateVersion", "timestamp", "environment", "region"]
        ∧ "eventSource" ∉ pd.map Prod.fst
        ∧ "eventType" ∉ pd.map Prod.fst
        ∧ "rawDetail" ∉ pd.map Prod.fst)
    ∧ (∀ err,
        ((lookup props "detail").get "templateMajorVersion").toStr = .error err →
        processor.handler env now (.object props) = .error err)
    ∧ (∀ major err,
        ((lookup props "detail").get "templateMajorVersion").toStr = .ok major →
        ((lookup props "detail").get "templateMinorVersion").toStr = .error err →
        processor.handler env now (.object props) = .error err) := by
  refine ⟨?_, ?_, ?_⟩
  · intro major minor hmajor hminor
    refine ⟨_, _, handler_proton env now props major minor hs ht hmajor hminor,
      rfl, rfl, rfl, rfl, rfl, rfl, rfl, ?_, ?_, ?_⟩ <;> simp
  · intro err hmajor
    exact handler_proton_error env now props err hs ht
      (serviceDeployment_error_major _ now err hmajor)
  · intro major err hmajor hminor
    exact handler_proton_error env now props err hs ht
      (serviceDeployment_error_minor _ now major err hmajor hminor)

/-- Witness of the amended C1 on Scenario A, whose version fields are the
numbers 1 and 2: templateVersion is "1.2". -/
theorem C1_proton_processedData_witness :
    lookup scenarioA "source" = .string "aws.proton"
    ∧ lookup scenarioA "detail-type" = .string "Proton Service Status Change"
    ∧ ((lookup scenarioA "detail").get "templateMajorVersion").toStr = .ok "1"
    ∧ ((lookup scenarioA "detail").get "templateMinorVersion").toStr = .ok "2"
    ∧ ∃ out pd, processor.handler prodEnv "2025-05-01T00:00:00.000Z" (.object scenarioA)
          = .ok out
      ∧ out.get "processedData" = .object pd
      ∧ lookup pd "serviceName" = .string "orders-svc"
      ∧ lookup pd "status" = .string "ACTIVE"
      ∧ lookup pd "deploymentStatus" = .string "SUCCEEDED"
      ∧ lookup pd "templateName" = .string "lambda-service"
      ∧ lookup pd "templateVersion" = .string "1.2"
      ∧ pd.map Prod.fst
          = ["serviceName", "status", "deploymentStatus", "templateName",
             "templateVersion", "timestamp", "environment", "region"]
      ∧ "eventSource" ∉ pd.map Prod.fst
      ∧ "eventType" ∉ pd.map Prod.fst
      ∧ "rawDetail" ∉ pd.map Prod.fst :=
  ⟨rfl, rfl, rfl, rfl,
    (C1_proton_processedData prodEnv "2025-05-01T00:00:00.000Z" scenarioA rfl rfl).1
      "1" "2" rfl rfl⟩

/-- C2 as stated fails: for the envelope with empty-string source and
detail-type and no detail, the generic processedData has eventSource and
eventType "unknown" and rawDetail an empty object, none of them equal to the
event's own source, detail-type and (absent) detail. -/
theorem C2_counterexample :
    ¬ (lookup blankEnvelope "source" = .string "aws.proton"
        ∧ lookup blankEnvelope "detail-type" = .string "Proton Service Status Change")
    ∧ ∃ out, processor.handler unsetEnv "2025-05-01T00:00:00.000Z" (.object blankEnvelope)
          = .ok out
      ∧ (out.get "processedData").get "eventSource" = .string "unknown"
      ∧ (out.get "processedData").get "eventSource" ≠ lookup blankEnvelope "source"
      ∧ (out.get "processedData").get "eventType" = .string "unknown"
      ∧ (out.get "processedData").get "eventType" ≠ lookup blankEnvelope "detail-type"
      ∧ (out.get "processedData").get "rawDetail" = .object []
      ∧ (out.get "processedData").get "rawDetail" ≠ lookup blankEnvelope "detail" := by
  refine ⟨?_, _, rfl, rfl, ?_, rfl, ?_, rfl, ?_⟩
  · simp [blankEnvelope, JSValue.lookup]
  · simp [blankEnvelope, JSValue.lookup, JSValue.get, response, genericData, JSValue.or, JSValue.truthy]
  · simp [blankEnvelope, JSValue.lookup, JSValue.get, response, genericData, JSValue.or, JSValue.truthy]
  · simp [blankEnvelope, JSValue.lookup, JSValue.get, response, genericData, JSValue.or, JSValue.truthy]

/-- C2, amended: for a raw event that does not have both source "aws.proton"
and detail-type "Proton Service Status Change", the processor returns the
generic processedData (properties eventSource, eventType, timestamp,
rawDetail, environment, region) in which eventSource is `source || 'unknown'`,
eventType is `detail-type || 'unknown'` and rawDetail is `detail || {}`: the
event's own value when it is truthy, and the default when it is absent, empty
or otherwise falsy. -/
theorem C2_generic_processedData (env : ProcessEnv) (now : String)
    (props : List (String × JSValue))
    (h : ¬ (lookup props "source" = .string "aws.proton"
          ∧ lookup props "detail-type" = .string "Proton Service Status Change")) :
    ∃ out pd, processor.handler env now (.object props) = .ok out
      ∧ out.get "processedData" = .object pd
      ∧ pd.map Prod.fst
          = ["eventSource", "eventType", "timestamp", "rawDetail", "environment", "region"]
      ∧ lookup pd "eventSource" = (lookup props "source").or (.string "unknown")
      ∧ lookup pd "eventType" = (lookup props "detail-type").or (.string "unknown")
      ∧ lookup pd "rawDetail" = (lookup props "detail").or (.object [])
      ∧ ((lookup props "source").truthy = true
          → lookup pd "eventSource" = lookup props "source")
      ∧ ((lookup props "source").truthy = false
          → lookup pd "eventSource" = .string "unknown")
      ∧ ((lookup props "detail-type").truthy = true
          → lookup pd "eventType" = lookup props "detail-type")
      ∧ ((lookup props "detail-type").truthy = false
          → lookup pd "eventType" = .string "unknown")
      ∧ ((lookup props "detail").truthy = true
          → lookup pd "rawDetail" = lookup props "detail")
      ∧ ((lookup props "detail").truthy = false
          → lookup pd "rawDetail" = .object []) := by
  refine ⟨_, _, handler_generic env now props h, rfl, rfl, rfl, rfl, rfl, ?_, ?_, ?_, ?_, ?_, ?_⟩
  · intro ht; exact or_of_truthy _ _ ht
  · intro ht; exact or_of_not_truthy _ _ ht
  · intro ht; exact or_of_truthy _ _ ht
  · intro ht; exact or_of_not_truthy _ _ ht
  · intro ht; exact or_of_truthy _ _ ht
  · intro ht; exact or_of_not_truthy _ _ ht

/-- Witness of the amended C2 on Scenario B. -/
theorem C2_generic_processedData_witness :
    ¬ (lookup scenarioB "source" = .string "aws.proton"
        ∧ lookup scenarioB "detail-type" = .string "Proton Service Status Change")
    ∧ ∃ out pd, processor.handler unsetEnv "2025-05-01T00:00:00.000Z" (.object scenarioB)
          = .ok out
      ∧ out.get "processedData" = .object pd
      ∧ lookup pd "eventSource" = .string "custom.app"
      ∧ lookup pd "eventType" = .string "Something"
      ∧ lookup pd "rawDetail" = .object [("foo", .string "bar")] := by
  have hB : ¬ (lookup scenarioB "source" = .string "aws.proton"
        ∧ lookup scenarioB "detail-type" = .string "Proton Service Status Change") := by
    simp [scenarioB, JSValue.lookup]
  obtain ⟨out, pd, h1, h2, -, h3, h4, h5, -⟩ :=
    C2_generic_processedData unsetEnv "2025-05-01T00:00:00.000Z" scenarioB hB
  exact ⟨hB, out, pd, h1, h2, h3, h4, h5⟩

/-! ## Claims about the notifier -/

theorem notification_service (up : String → String) (env : ProcessEnv) (nowFormat : String)
    (props : List (String × JSValue)) (nameText statusText : String)
    (hn : ((lookup props "processedData").get "serviceName").truthy = true)
    (hd : ((lookup props "processedData").get "deploymentStatus").truthy = true)
    (hname : ((lookup props "processedData").get "serviceName").toStr = .ok nameText)
    (hstatus : ((lookup props "processedData").get "deploymentStatus").toStr
                = .ok statusText) :
    notifier.notification up env nowFormat (.object props)
      = .ok ("[" ++ up (envOr env.ENVIRONMENT "unknown") ++ "] Proton Service "
              ++ nameText ++ " - " ++ statusText,
          .object [("title", .string ("Service Deployment " ++ statusText)),
                   ("service", (lookup props "processedData").get "serviceName"),
                   ("status", (lookup props "processedData").get "deploymentStatus"),
                   ("template", (lookup props "processedData").get "templateName"),
                   ("version", (lookup props "processedData").get "templateVersion"),
                   ("timestamp", (lookup props "processedData").get "timestamp"),
                   ("environment", .string (envOr env.ENVIRONMENT "unknown"))]) :=
  notification_service_event up env nowFormat (.object props) nameText statusText rfl
    hn hd hname hstatus

theorem notification_service_error (up : String → String) (env : ProcessEnv)
    (nowFormat : String) (props : List (String × JSValue)) (err : TypeError)
    (hn : ((lookup props "processedData").get "serviceName").truthy = true)
    (hd : ((lookup props "processedData").get "deploymentStatus").truthy = true)
    (h : ((lookup props "processedData").get "serviceName").toStr = .error err
          ∨ ∃ nameText,
              ((lookup props "processedData").get "serviceName").toStr = .ok nameText
              ∧ ((lookup props "processedData").get "deploymentStatus").toStr
                  = .error err) :
    notifier.notification up env nowFormat (.object props) = .error err := by
  rcases h with h | ⟨nameText, h1, h2⟩
  · exact notification_service_error_name up env nowFormat (.object props) err rfl hn hd h
  · exact notification_service_error_status up env nowFormat (.object props) nameText err
      rfl hn hd h1 h2

theorem notification_generic (up : String → String) (env : ProcessEnv) (nowFormat : String)
    (props : List (String × JSValue))
    (h : (((lookup props "processedData").get "serviceName").truthy
          && ((lookup props "processedData").get "deploymentStatus").truthy) = false) :
    notifier.notification up env nowFormat (.object props)
      = .ok ("[" ++ up (envOr env.ENVIRONMENT "unknown") ++ "] Platform Event Notification",
          .object [("title", .string "Platform Event Processed"),
                   ("eventType", ((lookup props "processedData").get "eventType").or
                      (((lookup props "rawEvent").get "detail-type").or (.string "Unknown"))),
                   ("source", ((lookup props "processedData").get "eventSource").or
                      (((lookup props "rawEvent").get "source").or (.string "Unknown"))),
                   ("timestamp", .string nowFormat),
                   ("details", (lookup props "processedData").or (.object [])),
                   ("environment", .string (envOr env.ENVIRONMENT "unknown"))]) :=
  notification_generic_event up env nowFormat (.object props) rfl h

/-- C3 as stated fails: for a service deployment with status ACTIVE and
deploymentStatus SUCCEEDED the subject ends in SUCCEEDED, the title is
"Service Deployment SUCCEEDED" and body.status is SUCCEEDED, not the event's
status field ACTIVE; with status ACTIVE but an empty deploymentStatus the
event is not given the service-deployment subject at all; and with a
serviceName that is an object with an own property toString the template
literal of the subject throws a TypeError and nothing is built. -/
theorem C3_counterexample :
    (lookup deploymentInput "processedData").get "status" = .string "ACTIVE"
    ∧ (∃ subject body,
        notifier.notification asciiUpperCase prodEnv "2025-05-01T00:00:00.000Z"
            (.object deploymentInput)
          = .ok (subject, body)
        ∧ subject = "[PROD] Proton Service orders-svc - SUCCEEDED"
        ∧ subject ≠ "[PROD] Proton Service orders-svc - ACTIVE"
        ∧ body.get "title" = .string "Service Deployment SUCCEEDED"
        ∧ body.get "title" ≠ .string "Service Deployment ACTIVE"
        ∧ body.get "status" = .string "SUCCEEDED"
        ∧ body.get "status" ≠ (lookup deploymentInput "processedData").get "status")
    ∧ (lookup deploymentInputNoStatus "processedData").get "status" = .string "ACTIVE"
    ∧ (∃ subject body,
        notifier.notification asciiUpperCase prodEnv "2025-05-01T00:00:00.000Z"
            (.object deploymentInputNoStatus)
          = .ok (subject, body)
        ∧ subject = "[PROD] Platform Event Notification"
        ∧ subject ≠ "[PROD] Proton Service orders-svc - ACTIVE")
    ∧ (lookup deploymentInputOddName "processedData").get "serviceName"
        = .object [("toString", .null)]
    ∧ notifier.notification asciiUpperCase prodEnv "2025-05-01T00:00:00.000Z"
          (.object deploymentInputOddName)
        = .error .notPrimitive := by
  refine ⟨rfl, ⟨_, _, rfl, rfl, by decide, rfl, ?_, rfl, ?_⟩, rfl,
    ⟨_, _, rfl, rfl, by decide⟩, rfl, rfl⟩
  · intro h
    exact absurd (JSValue.string.inj h) (by decide)
  · intro h
    exact absurd (JSValue.string.inj h) (by decide)

/-- C3, amended: for every notifier input whose processedData has a truthy
(present, non-empty) serviceName and deploymentStatus: when both convert to
strings, the notifier builds subject
"[ENV_UPPER] Proton Service serviceName - deploymentStatus" and the body with
title "Service Deployment deploymentStatus", service = serviceName, status =
deploymentStatus, template = templateName, version = templateVersion,
timestamp = the event's timestamp and environment, so the event's
deploymentStatus field, not its status field, stands in all three places;
when one of the two does not convert, the notifier throws that TypeError. -/
theorem C3_service_notification (toUpperCase : String → String) (env : ProcessEnv)
    (nowFormat : String) (props : List (String × JSValue))
    (hn : ((lookup props "processedData").get "serviceName").truthy = true)
    (hd : ((lookup props "processedData").get "deploymentStatus").truthy = true) :
    (∀ nameText statusText,
      ((lookup props "processedData").get "serviceName").toStr = .ok nameText →
      ((lookup props "processedData").get "deploymentStatus").toStr = .ok statusText →
      notifier.notification toUpperCase env nowFormat (.object props)
        = .ok ("[" ++ toUpperCase (envOr env.ENVIRONMENT "unknown") ++ "] Proton Service "
                ++ nameText ++ " - " ++ statusText,
            .object [("title", .string ("Service Deployment " ++ statusText)),
                     ("service", (lookup props "processedData").get "serviceName"),
                     ("status", (lookup props "processedData").get "deploymentStatus"),
                     ("template", (lookup props "processedData").get "templateName"),
                     ("version", (lookup props "processedData").get "templateVersion"),
                     ("timestamp", (lookup props "processedData").get "timestamp"),
                     ("environment", .string (envOr env.ENVIRONMENT "unknown"))]))
    ∧ (∀ err,
        ((lookup props "processedData").get "serviceName").toStr = .error err
          ∨ (∃ nameText,
              ((lookup props "processedData").get "serviceName").toStr = .ok nameText
              ∧ ((lookup props "processedData").get "deploymentStatus").toStr
                  = .error err) →
        notifier.notification toUpperCase env nowFormat (.object props) = .error err) :=
  ⟨fun nameText statusText hname hstatus =>
      notification_service toUpperCase env nowFormat props nameText statusText hn hd
        hname hstatus,
    fun err h => notification_service_error toUpperCase env nowFormat props err hn hd h⟩

/-- Witness of the amended C3 on a deployment with status ACTIVE and
deploymentStatus SUCCEEDED, under ENVIRONMENT=prod. -/
theorem C3_service_notification_witness :
    ((lookup deploymentInput "processedData").get "serviceName").truthy = true
    ∧ ((lookup deploymentInput "processedData").get "deploymentStatus").truthy = true
    ∧ ((lookup deploymentInput "processedData").get "serviceName").toStr = .ok "orders-svc"
    ∧ ((lookup deploymentInput "processedData").get "deploymentStatus").toStr
        = .ok "SUCCEEDED"
    ∧ notifier.notification asciiUpperCase prodEnv "2025-05-01T00:00:00.000Z"
          (.object deploymentInput)
      = .ok ("[PROD] Proton Service orders-svc - SUCCEEDED",
          .object [("title", .string "Service Deployment SUCCEEDED"),
                   ("service", .string "orders-svc"),
                   ("status", .string "SUCCEEDED"),
                   ("template", .string "lambda-service"),
                   ("version", .string "1.2"),
                   ("timestamp", .string "2024-01-01T00:00:00Z"),
                   ("environment", .string "prod")]) :=
  ⟨rfl, rfl, rfl, rfl,
    (C3_service_notification asciiUpperCase prodEnv "2025-05-01T00:00:00.000Z"
      deploymentInput rfl rfl).1 "orders-svc" "SUCCEEDED" rfl rfl⟩

/-! ## Claims about the pipeline -/

theorem notification_service_response (up : String → String) (env : ProcessEnv)
    (nowFormat : String) (pd raw : JSValue) (nameText statusText : String)
    (hn : (pd.get "serviceName").truthy = true)
    (hd : (pd.get "deploymentStatus").truthy = true)
    (hname : (pd.get "serviceName").toStr = .ok nameText)
    (hstatus : (pd.get "deploymentStatus").toStr = .ok statusText) :
    notifier.notification up env nowFormat (response pd raw)
      = .ok ("[" ++ up (envOr env.ENVIRONMENT "unknown") ++ "] Proton Service "
              ++ nameText ++ " - " ++ statusText,
          .object [("title", .string ("Service Deployment " ++ statusText)),
                   ("service", pd.get "serviceName"),
                   ("status", pd.get "deploymentStatus"),
                   ("template", pd.get "templateName"),
                   ("version", pd.get "templateVersion"),
                   ("timestamp", pd.get "timestamp"),
                   ("environment", .string (envOr env.ENVIRONMENT "unknown"))]) :=
  notification_service up env nowFormat _ nameText statusText hn hd hname hstatus

theorem notification_generic_response (up : String → String) (env : ProcessEnv)
    (nowFormat : String) (pd raw : JSValue)
    (h : ((pd.get "serviceName").truthy && (pd.get "deploymentStatus").truthy) = false) :
    notifier.notification up env nowFormat (response pd raw)
      = .ok ("[" ++ up (envOr env.ENVIRONMENT "unknown") ++ "] Platform Event Notification",
          .object [("title", .string "Platform Event Processed"),
                   ("eventType", (pd.get "eventType").or
                      ((raw.get "detail-type").or (.string "Unknown"))),
                   ("source", (pd.get "eventSource").or
                      ((raw.get "source").or (.string "Unknown"))),
                   ("timestamp", .string nowFormat),
                   ("details", pd.or (.object [])),
                   ("environment", .string (envOr env.ENVIRONMENT "unknown"))]) :=
  notification_generic up env nowFormat _ h

/-- C4 as stated fails: on a Proton service status change whose name and
deploymentStatus are non-empty strings but whose templateMajorVersion is an
object with an own property toString, the processor throws a TypeError, so
nothing is published and there is neither a subject nor a body. -/
theorem C4_counterexample :
    lookup protonOddVersion "source" = .string "aws.proton"
    ∧ lookup protonOddVersion "detail-type" = .string "Proton Service Status Change"
    ∧ (lookup protonOddVersion "detail").get "name" = .string "orders-svc"
    ∧ (lookup protonOddVersion "detail").get "deploymentStatus" = .string "SUCCEEDED"
    ∧ (pipeline asciiUpperCase prodEnv publishOk "2025-05-01T00:00:00.000Z"
        "2025-05-01T00:00:01.000Z" "2025-05-01T00:00:02.000Z"
        (.object protonOddVersion)).published = []
    ∧ (pipeline asciiUpperCase prodEnv publishOk "2025-05-01T00:00:00.000Z"
        "2025-05-01T00:00:01.000Z" "2025-05-01T00:00:02.000Z"
        (.object protonOddVersion)).result = .error (.typeError .notPrimitive) :=
  ⟨rfl, rfl, rfl, rfl, rfl, rfl⟩

/-- C4, amended: run the processor and then the notifier under the same
environment. For every Proton service status change whose detail.name and
detail.deploymentStatus are non-empty strings and whose templateMajorVersion
and templateMinorVersion convert to strings, the processor returns, the
notifier builds and publishes exactly one request, with subject
"[ENV_UPPER] Proton Service name - deploymentStatus" and as message the
serialization of the body it built, whose version is the text of
templateMajorVersion, a dot and the text of templateMinorVersion. On
Scenario A with ENVIRONMENT=prod, upper-cased to PROD, the subject is
"[PROD] Proton Service orders-svc - SUCCEEDED" and body.version is "1.2".
When a version field does not convert, the processor throws and nothing is
published. -/
theorem C4_pipeline_proton {ε : Type} (toUpperCase : String → String)
    (publish : PublishParams → Except ε Unit) (now nowFormat nowReceipt : String) :
    (∀ (env : ProcessEnv) (props : List (String × JSValue))
        (name status major minor : String),
      lookup props "source" = .string "aws.proton" →
      lookup props "detail-type" = .string "Proton Service Status Change" →
      (lookup props "detail").get "name" = .string name → name ≠ "" →
      (lookup props "detail").get "deploymentStatus" = .string status → status ≠ "" →
      ((lookup props "detail").get "templateMajorVersion").toStr = .ok major →
      ((lookup props "detail").get "templateMinorVersion").toStr = .ok minor →
      ∃ out body,
        processor.handler env now (.object props) = .ok out
        ∧ notifier.notification toUpperCase env nowFormat out
            = .ok ("[" ++ toUpperCase (envOr env.ENVIRONMENT "unknown")
                    ++ "] Proton Service " ++ name ++ " - " ++ status, body)
        ∧ (pipeline toUpperCase env publish now nowFormat nowReceipt
              (.object props)).published
            = [⟨envValue env.NOTIFICATION_TOPIC_ARN,
                "[" ++ toUpperCase (envOr env.ENVIRONMENT "unknown") ++ "] Proton Service "
                  ++ name ++ " - " ++ status,
                JSON.stringify body 2⟩]
        ∧ body.get "version" = .string (major ++ "." ++ minor))
    ∧ (toUpperCase "prod" = "PROD" →
        ∃ out body,
          processor.handler prodEnv now (.object scenarioA) = .ok out
          ∧ notifier.notification toUpperCase prodEnv nowFormat out
              = .ok ("[PROD] Proton Service orders-svc - SUCCEEDED", body)
          ∧ (pipeline toUpperCase prodEnv publish now nowFormat nowReceipt
                (.object scenarioA)).published
              = [⟨envValue prodEnv.NOTIFICATION_TOPIC_ARN,
                  "[PROD] Proton Service orders-svc - SUCCEEDED",
                  JSON.stringify body 2⟩]
          ∧ body.get "version" = .string "1.2")
    ∧ (∀ (env : ProcessEnv) (props : List (String × JSValue)) (err : TypeError),
        lookup props "source" = .string "aws.proton" →
        lookup props "detail-type" = .string "Proton Service Status Change" →
        ((lookup props "detail").get "templateMajorVersion").toStr = .error err
          ∨ (∃ major,
              ((lookup props "detail").get "templateMajorVersion").toStr = .ok major
              ∧ ((lookup props "detail").get "templateMinorVersion").toStr = .error err) →
        (pipeline toUpperCase env publish now nowFormat nowReceipt
            (.object props)).published = []
        ∧ (pipeline toUpperCase env publish now nowFormat nowReceipt
            (.object props)).result = .error (.typeError err)) := by
  have general : ∀ (env : ProcessEnv) (props : List (String × JSValue))
      (name status major minor : String),
      lookup props "source" = .string "aws.proton" →
      lookup props "detail-type" = .string "Proton Service Status Change" →
      (lookup props "detail").get "name" = .string name → name ≠ "" →
      (lookup props "detail").get "deploymentStatus" = .string status → status ≠ "" →
      ((lookup props "detail").get "templateMajorVersion").toStr = .ok major →
      ((lookup props "detail").get "templateMinorVersion").toStr = .ok minor →
      ∃ out body,
        processor.handler env now (.object props) = .ok out
        ∧ notifier.notification toUpperCase env nowFormat out
            = .ok ("[" ++ toUpperCase (envOr env.ENVIRONMENT "unknown")
                    ++ "] Proton Service " ++ name ++ " - " ++ status, body)
        ∧ (pipeline toUpperCase env publish now nowFormat nowReceipt
              (.object props)).published
            = [⟨envValue env.NOTIFICATION_TOPIC_ARN,
                "[" ++ toUpperCase (envOr env.ENVIRONMENT "unknown") ++ "] Proton Service "
                  ++ name ++ " - " ++ status,
                JSON.stringify body 2⟩]
        ∧ body.get "version" = .string (major ++ "." ++ minor) := by
    intro env props name status major minor hs ht hname hne hstatus hse hmajor hminor
    have hout := handler_proton env now props major minor hs ht hmajor hminor
    have e1 : (protonData env now (lookup props "detail") (major ++ "." ++ minor)).get
        "serviceName" = .string name := hname
    have e2 : (protonData env now (lookup props "detail") (major ++ "." ++ minor)).get
        "deploymentStatus" = .string status := hstatus
    have hfmt := notification_service_response toUpperCase env nowFormat
      (protonData env now (lookup props "detail") (major ++ "." ++ minor)) (.object props)
      name status
      (by rw [e1]; exact truthy_string name hne)
      (by rw [e2]; exact truthy_string status hse)
      (by rw [e1]; rfl) (by rw [e2]; rfl)
    have hp := handler_published toUpperCase env publish nowFormat nowReceipt _ _ _ hfmt
    rw [← pipeline_of_ok toUpperCase env publish now nowFormat nowReceipt _ _ hout] at hp
    exact ⟨_, _, hout, hfmt, hp, rfl⟩
  refine ⟨general, ?_, ?_⟩
  rotate_left
  · intro env props err hs ht herr
    have hfail : processor.handler env now (.object props) = .error err := by
      rcases herr with h | ⟨major, h1, h2⟩
      · exact handler_proton_error env now props err hs ht
          (serviceDeployment_error_major _ now err h)
      · exact handler_proton_error env now props err hs ht
          (serviceDeployment_error_minor _ now major err h1 h2)
    rw [pipeline_of_error toUpperCase env publish now nowFormat nowReceipt _ err hfail]
    exact ⟨rfl, rfl⟩
  intro hup
  obtain ⟨out, body, h1, h2, h3, h4⟩ := general prodEnv scenarioA "orders-svc" "SUCCEEDED"
    "1" "2" rfl rfl rfl (by decide) rfl (by decide) rfl rfl
  have hsub : "[" ++ toUpperCase (envOr prodEnv.ENVIRONMENT "unknown") ++ "] Proton Service "
      ++ "orders-svc" ++ " - " ++ "SUCCEEDED"
        = "[PROD] Proton Service orders-svc - SUCCEEDED" := by
    show "[" ++ toUpperCase "prod" ++ "] Proton Service " ++ "orders-svc" ++ " - "
      ++ "SUCCEEDED" = _
    rw [hup]
    rfl
  rw [hsub] at h2 h3
  exact ⟨out, body, h1, h2, h3, h4⟩

/-- Witness of the amended C4: the hypotheses of both parts hold on
Scenario A with the ASCII upper-casing. -/
theorem C4_pipeline_proton_witness :
    asciiUpperCase "prod" = "PROD"
    ∧ ∃ out body,
        processor.handler prodEnv "2025-05-01T00:00:00.000Z" (.object scenarioA) = .ok out
        ∧ notifier.notification asciiUpperCase prodEnv "2025-05-01T00:00:01.000Z" out
            = .ok ("[PROD] Proton Service orders-svc - SUCCEEDED", body)
        ∧ (pipeline asciiUpperCase prodEnv publishOk "2025-05-01T00:00:00.000Z"
              "2025-05-01T00:00:01.000Z" "2025-05-01T00:00:02.000Z"
              (.object scenarioA)).published
            = [⟨.string "arn:aws:sns:ap-southeast-2:123456789012:demo",
                "[PROD] Proton Service orders-svc - SUCCEEDED",
                JSON.stringify body 2⟩]
        ∧ body.get "version" = .string "1.2" :=
  ⟨rfl,
    (C4_pipeline_proton asciiUpperCase publishOk "2025-05-01T00:00:00.000Z"
      "2025-05-01T00:00:01.000Z" "2025-05-01T00:00:02.000Z").2.1 rfl⟩

/-- C5 as stated fails: for a generic processed event whose eventType and
eventSource are empty strings, handed to the notifier next to the raw event
of Scenario B, body.eventType is the raw event's detail-type "Something" and
body.source its source "custom.app", not the event's own (empty) eventType
and eventSource. -/
theorem C5_counterexample :
    (lookup genericInputBlank "processedData").get "eventType" = .string ""
    ∧ (lookup genericInputBlank "processedData").get "eventSource" = .string ""
    ∧ ∃ body,
        notifier.notification asciiUpperCase unsetEnv "2025-05-01T00:00:01.000Z"
            (.object genericInputBlank)
          = .ok ("[UNKNOWN] Platform Event Notification", body)
        ∧ body.get "eventType" = .string "Something"
        ∧ body.get "eventType" ≠ (lookup genericInputBlank "processedData").get "eventType"
        ∧ body.get "source" = .string "custom.app"
        ∧ body.get "source" ≠ (lookup genericInputBlank "processedData").get "eventSource" := by
  refine ⟨rfl, rfl, _, rfl, rfl, ?_, rfl, ?_⟩
  · intro h
    exact absurd (JSValue.string.inj h) (by decide)
  · intro h
    exact absurd (JSValue.string.inj h) (by decide)

/-- C5, amended: for every notifier input whose processedData is a generic
processed event (the properties eventSource, eventType, timestamp, rawDetail,
environment and region, whatever their values), the subject is exactly
"[ENV_UPPER] Platform Event Notification" and the body is title
"Platform Event Processed", eventType = the event's eventType when it is
truthy (non-empty), else the raw event's detail-type when that is truthy, else
"Unknown", source = likewise the event's eventSource, the raw event's source
or "Unknown", timestamp = the clock reading of the formatting call, details =
the whole processed event, and environment. On Scenario B with ENVIRONMENT
unset and "unknown" upper-cased to UNKNOWN, processor then notifier publish
the subject "[UNKNOWN] Platform Event Notification" with body.eventType
"Something". -/
theorem C5_generic_notification {ε : Type} (toUpperCase : String → String)
    (publish : PublishParams → Except ε Unit) (now nowFormat nowReceipt : String) :
    (∀ (env : ProcessEnv) (evProps : List (String × JSValue))
        (eventSource eventType timestamp rawDetail environment region : JSValue),
      lookup evProps "processedData"
        = .object [("eventSource", eventSource), ("eventType", eventType),
                   ("timestamp", timestamp), ("rawDetail", rawDetail),
                   ("environment", environment), ("region", region)] →
      ∃ body,
        notifier.notification toUpperCase env nowFormat (.object evProps)
          = .ok ("[" ++ toUpperCase (envOr env.ENVIRONMENT "unknown")
                  ++ "] Platform Event Notification", body)
        ∧ body
            = .object [("title", .string "Platform Event Processed"),
                       ("eventType", eventType.or
                          (((lookup evProps "rawEvent").get "detail-type").or
                            (.string "Unknown"))),
                       ("source", eventSource.or
                          (((lookup evProps "rawEvent").get "source").or
                            (.string "Unknown"))),
                       ("timestamp", .string nowFormat),
                       ("details", lookup evProps "processedData"),
                       ("environment", .string (envOr env.ENVIRONMENT "unknown"))]
        ∧ (eventType.truthy = true → body.get "eventType" = eventType)
        ∧ (eventSource.truthy = true → body.get "source" = eventSource))
    ∧ (toUpperCase "unknown" = "UNKNOWN" →
        ∃ out body,
          processor.handler unsetEnv now (.object scenarioB) = .ok out
          ∧ notifier.notification toUpperCase unsetEnv nowFormat out
              = .ok ("[UNKNOWN] Platform Event Notification", body)
          ∧ (pipeline toUpperCase unsetEnv publish now nowFormat nowReceipt
                (.object scenarioB)).published
              = [⟨.undefined, "[UNKNOWN] Platform Event Notification",
                  JSON.stringify body 2⟩]
          ∧ body.get "eventType" = .string "Something") := by
  constructor
  · intro env evProps eventSource eventType timestamp rawDetail environment region hpd
    have hfmt := notification_generic toUpperCase env nowFormat evProps
      (by rw [hpd]; rfl)
    refine ⟨_, hfmt, ?_, ?_, ?_⟩
    · rw [hpd]; rfl
    · intro ht
      show ((lookup evProps "processedData").get "eventType").or _ = _
      rw [hpd]
      exact or_of_truthy _ _ ht
    · intro ht
      show ((lookup evProps "processedData").get "eventSource").or _ = _
      rw [hpd]
      exact or_of_truthy _ _ ht
  · intro hup
    have hB : ¬ (lookup scenarioB "source" = .string "aws.proton"
          ∧ lookup scenarioB "detail-type" = .string "Proton Service Status Change") := by
      simp [scenarioB, JSValue.lookup]
    have hout := handler_generic unsetEnv now scenarioB hB
    have hfmt := notification_generic_response toUpperCase unsetEnv nowFormat
      (genericData unsetEnv now (lookup scenarioB "source") (lookup scenarioB "detail-type")
        (lookup scenarioB "detail")) (.object scenarioB) rfl
    have hsub : "[" ++ toUpperCase (envOr unsetEnv.ENVIRONMENT "unknown")
        ++ "] Platform Event Notification" = "[UNKNOWN] Platform Event Notification" := by
      show "[" ++ toUpperCase "unknown" ++ "] Platform Event Notification" = _
      rw [hup]
      rfl
    rw [hsub] at hfmt
    have hp := handler_published toUpperCase unsetEnv publish nowFormat nowReceipt _ _ _ hfmt
    rw [← pipeline_of_ok toUpperCase unsetEnv publish now nowFormat nowReceipt _ _ hout] at hp
    exact ⟨_, _, hout, hfmt, hp, rfl⟩

/-- Witness of the amended C5: a generic processed event with non-empty
eventType and eventSource, and Scenario B through the pipeline, with the
ASCII upper-casing. -/
theorem C5_generic_notification_witness :
    (∃ body,
      notifier.notification asciiUpperCase prodEnv "2025-05-01T00:00:01.000Z"
          (.object genericInput)
        = .ok ("[PROD] Platform Event Notification", body)
      ∧ body.get "eventType" = .string "Something"
      ∧ body.get "source" = .string "custom.app"
      ∧ body.get "timestamp" = .string "2025-05-01T00:00:01.000Z"
      ∧ body.get "details" = lookup genericInput "processedData")
    ∧ asciiUpperCase "unknown" = "UNKNOWN"
    ∧ (∃ out body,
        processor.handler unsetEnv "2025-05-01T00:00:00.000Z" (.object scenarioB) = .ok out
        ∧ notifier.notification asciiUpperCase unsetEnv "2025-05-01T00:00:01.000Z" out
            = .ok ("[UNKNOWN] Platform Event Notification", body)
        ∧ (pipeline asciiUpperCase unsetEnv publishOk "2025-05-01T00:00:00.000Z"
              "2025-05-01T00:00:01.000Z" "2025-05-01T00:00:02.000Z"
              (.object scenarioB)).published
            = [⟨.undefined, "[UNKNOWN] Platform Event Notification",
                JSON.stringify body 2⟩]
        ∧ body.get "eventType" = .string "Something") := by
  obtain ⟨body, h1, h2, h3, h4⟩ :=
    (C5_generic_notification asciiUpperCase publishOk "2025-05-01T00:00:00.000Z"
      "2025-05-01T00:00:01.000Z" "2025-05-01T00:00:02.000Z").1 prodEnv genericInput
      (.string "custom.app") (.string "Something") (.string "2025-05-01T00:00:00.000Z")
      (.object [("foo", .string "bar")]) (.string "prod") (.string "ap-southeast-2") rfl
  refine ⟨⟨body, h1, h3 rfl, h4 rfl, ?_, ?_⟩, rfl,
    (C5_generic_notification asciiUpperCase publishOk "2025-05-01T00:00:00.000Z"
      "2025-05-01T00:00:01.000Z" "2025-05-01T00:00:02.000Z").2 rfl⟩
  · rw [h2]; rfl
  · rw [h2]; rfl

/-- C6 as stated fails: a Proton service status change without a detail is
turned by the processor into the service-deployment processedData, and the
notifier formats that as the generic "Platform Event Notification"; one whose
templateMajorVersion is an object with an own property toString makes the
processor throw, so nothing is formatted; and one whose name is such an
object makes the notifier throw at the subject. -/
theorem C6_counterexample :
    lookup protonNoDetail "source" = .string "aws.proton"
    ∧ lookup protonNoDetail "detail-type" = .string "Proton Service Status Change"
    ∧ (∃ out pd body,
        processor.handler unsetEnv "2025-05-01T00:00:00.000Z" (.object protonNoDetail)
          = .ok out
        ∧ out.get "processedData" = .object pd
        ∧ pd.map Prod.fst
            = ["serviceName", "status", "deploymentStatus", "templateName",
               "templateVersion", "timestamp", "environment", "region"]
        ∧ notifier.notification asciiUpperCase unsetEnv "2025-05-01T00:00:01.000Z" out
            = .ok ("[UNKNOWN] Platform Event Notification", body)
        ∧ body.get "title" = .string "Platform Event Processed")
    ∧ lookup protonOddVersion "source" = .string "aws.proton"
    ∧ lookup protonOddVersion "detail-type" = .string "Proton Service Status Change"
    ∧ processor.handler unsetEnv "2025-05-01T00:00:00.000Z" (.object protonOddVersion)
        = .error .notPrimitive
    ∧ lookup protonOddName "source" = .string "aws.proton"
    ∧ lookup protonOddName "detail-type" = .string "Proton Service Status Change"
    ∧ (∃ out,
        processor.handler unsetEnv "2025-05-01T00:00:00.000Z" (.object protonOddName)
          = .ok out
        ∧ notifier.notification asciiUpperCase unsetEnv "2025-05-01T00:00:01.000Z" out
            = .error .notPrimitive) :=
  ⟨rfl, rfl, ⟨_, _, _, rfl, rfl, rfl, rfl, rfl⟩, rfl, rfl, rfl, rfl, rfl, ⟨_, rfl, rfl⟩⟩

/-- C6, amended: the notifier's dispatch follows the presence of two fields,
not the variant. For every raw event with source "aws.proton" and detail-type
"Proton Service Status Change" whose two version fields convert to strings,
the processor returns, and the notifier formats what it returned as the
service-deployment notification (subject
"[ENV_UPPER] Proton Service name - deploymentStatus", title
"Service Deployment deploymentStatus") when detail.name and
detail.deploymentStatus are both truthy (present and non-empty) and convert
to strings, as the generic "Platform Event Notification" (title
"Platform Event Processed") when either of them is missing, empty or
otherwise falsy, and throws the TypeError when both are truthy and one does
not convert. When a version field does not convert, the processor throws. -/
theorem C6_dispatch_on_fields (toUpperCase : String → String) (env envN : ProcessEnv)
    (now nowFormat : String) (props : List (String × JSValue))
    (hs : lookup props "source" = .string "aws.proton")
    (ht : lookup props "detail-type" = .string "Proton Service Status Change") :
    (∀ major minor,
      ((lookup props "detail").get "templateMajorVersion").toStr = .ok major →
      ((lookup props "detail").get "templateMinorVersion").toStr = .ok minor →
      ∃ out, processor.handler env now (.object props) = .ok out
        ∧ (((lookup props "detail").get "name").truthy = true →
            ((lookup props "detail").get "deploymentStatus").truthy = true →
            ∀ nameText statusText,
              ((lookup props "detail").get "name").toStr = .ok nameText →
              ((lookup props "detail").get "deploymentStatus").toStr = .ok statusText →
              ∃ body, notifier.notification toUpperCase envN nowFormat out
                  = .ok ("[" ++ toUpperCase (envOr envN.ENVIRONMENT "unknown")
                          ++ "] Proton Service " ++ nameText ++ " - " ++ statusText, body)
                ∧ body.get "title" = .string ("Service Deployment " ++ statusText))
        ∧ ((((lookup props "detail").get "name").truthy
              && ((lookup props "detail").get "deploymentStatus").truthy) = false →
            ∃ body, notifier.notification toUpperCase envN nowFormat out
                = .ok ("[" ++ toUpperCase (envOr envN.ENVIRONMENT "unknown")
                        ++ "] Platform Event Notification", body)
              ∧ body.get "title" = .string "Platform Event Processed")
        ∧ (((lookup props "detail").get "name").truthy = true →
            ((lookup props "detail").get "deploymentStatus").truthy = true →
            ∀ err,
              ((lookup props "detail").get "name").toStr = .error err
                ∨ (∃ nameText,
                    ((lookup props "detail").get "name").toStr = .ok nameText
                    ∧ ((lookup props "detail").get "deploymentStatus").toStr
                        = .error err) →
              notifier.notification toUpperCase envN nowFormat out = .error err))
    ∧ (∀ err,
        ((lookup props "detail").get "templateMajorVersion").toStr = .error err
          ∨ (∃ major,
              ((lookup props "detail").get "templateMajorVersion").toStr = .ok major
              ∧ ((lookup props "detail").get "templateMinorVersion").toStr = .error err) →
        processor.handler env now (.object props) = .error err) := by
  constructor
  · intro major minor hmajor hminor
    refine ⟨_, handler_proton env now props major minor hs ht hmajor hminor, ?_, ?_, ?_⟩
    · intro hn hd nameText statusText hname hstatus
      exact ⟨_, notification_service_response toUpperCase envN nowFormat
        (protonData env now (lookup props "detail") (major ++ "." ++ minor)) (.object props)
        nameText statusText hn hd hname hstatus, rfl⟩
    · intro h
      exact ⟨_, notification_generic_response toUpperCase envN nowFormat
        (protonData env now (lookup props "detail") (major ++ "." ++ minor)) (.object props)
        h, rfl⟩
    · intro hn hd err herr
      exact notification_service_error toUpperCase envN nowFormat
        [("statusCode", .number (.ofInt 200)),
         ("processedData", protonData env now (lookup props "detail") (major ++ "." ++ minor)),
         ("rawEvent", .object props)] err hn hd herr
  · intro err herr
    rcases herr with h | ⟨major, h1, h2⟩
    · exact handler_proton_error env now props err hs ht
        (serviceDeployment_error_major _ now err h)
    · exact handler_proton_error env now props err hs ht
        (serviceDeployment_error_minor _ now major err h1 h2)

/-- Witness of the amended C6 on Scenario A and on the Proton event without a
detail, under ENVIRONMENT=prod with the ASCII upper-casing. -/
theorem C6_dispatch_on_fields_witness :
    (∃ out, processor.handler prodEnv "2025-05-01T00:00:00.000Z" (.object scenarioA)
        = .ok out
      ∧ ∃ body, notifier.notification asciiUpperCase prodEnv "2025-05-01T00:00:01.000Z" out
          = .ok ("[PROD] Proton Service orders-svc - SUCCEEDED", body)
        ∧ body.get "title" = .string "Service Deployment SUCCEEDED")
    ∧ (∃ out, processor.handler prodEnv "2025-05-01T00:00:00.000Z" (.object protonNoDetail)
        = .ok out
      ∧ ∃ body, notifier.notification asciiUpperCase prodEnv "2025-05-01T00:00:01.000Z" out
          = .ok ("[PROD] Platform Event Notification", body)
        ∧ body.get "title" = .string "Platform Event Processed") := by
  obtain ⟨out, h1, h2, -, -⟩ := (C6_dispatch_on_fields asciiUpperCase prodEnv prodEnv
    "2025-05-01T00:00:00.000Z" "2025-05-01T00:00:01.000Z" scenarioA rfl rfl).1
    "1" "2" rfl rfl
  obtain ⟨out2, h3, -, h4, -⟩ := (C6_dispatch_on_fields asciiUpperCase prodEnv prodEnv
    "2025-05-01T00:00:00.000Z" "2025-05-01T00:00:01.000Z" protonNoDetail rfl rfl).1
    "undefined" "undefined" rfl rfl
  exact ⟨⟨out, h1, h2 rfl rfl "orders-svc" "SUCCEEDED" rfl rfl⟩, ⟨out2, h3, h4 rfl⟩⟩

/-! ## Claims about failure and the publish call -/

theorem handler_error_cases (env : ProcessEnv) (now : String) (raw : JSValue)
    (err : TypeError) (h : processor.handler env now raw = .error err) :
    (raw.isNullish = true ∧ err = .nullishRead "source")
    ∨ ((raw.get "source" = .string "aws.proton"
          ∧ raw.get "detail-type" = .string "Proton Service Status Change")
        ∧ (((raw.get "detail").get "templateMajorVersion").toStr = .error err
            ∨ ∃ major,
                ((raw.get "detail").get "templateMajorVersion").toStr = .ok major
                ∧ ((raw.get "detail").get "templateMinorVersion").toStr = .error err)) := by
  cases hnull : raw.isNullish with
  | true =>
    rw [handler_nullish env now raw hnull] at h
    exact Or.inl ⟨rfl, (Except.error.inj h).symm⟩
  | false =>
    by_cases hp : raw.get "source" = .string "aws.proton"
        ∧ raw.get "detail-type" = .string "Proton Service Status Change"
    · refine Or.inr ⟨hp, ?_⟩
      cases hmajor : ((raw.get "detail").get "templateMajorVersion").toStr with
      | error e =>
        rw [handler_proton_error_event env now raw e hnull hp.1 hp.2
          (serviceDeployment_error_major _ now e hmajor)] at h
        exact Or.inl (by rw [Except.error.inj h])
      | ok major =>
        cases hminor : ((raw.get "detail").get "templateMinorVersion").toStr with
        | error e =>
          rw [handler_proton_error_event env now raw e hnull hp.1 hp.2
            (serviceDeployment_error_minor _ now major e hmajor hminor)] at h
          exact Or.inr ⟨major, rfl, by rw [Except.error.inj h]⟩
        | ok minor =>
          rw [handler_proton_event env now raw major minor hnull hp.1 hp.2 hmajor hminor]
            at h
          cases h
    · rw [handler_generic_event env now raw hnull hp] at h
      cases h

theorem notification_error_cases (up : String → String) (env : ProcessEnv)
    (nowFormat : String) (event : JSValue) (err : TypeError)
    (h : notifier.notification up env nowFormat event = .error err) :
    (event.isNullish = true ∧ err = .nullishRead "processedData")
    ∨ ((((event.get "processedData").get "serviceName").truthy = true
          ∧ ((event.get "processedData").get "deploymentStatus").truthy = true)
        ∧ (((event.get "processedData").get "serviceName").toStr = .error err
            ∨ ∃ nameText,
                ((event.get "processedData").get "serviceName").toStr = .ok nameText
                ∧ ((event.get "processedData").get "deploymentStatus").toStr
                    = .error err)) := by
  cases hnull : event.isNullish with
  | true =>
    rw [notification_nullish up env nowFormat event hnull] at h
    exact Or.inl ⟨rfl, (Except.error.inj h).symm⟩
  | false =>
    cases htest : (((event.get "processedData").get "serviceName").truthy
          && ((event.get "processedData").get "deploymentStatus").truthy) with
    | false =>
      rw [notification_generic_event up env nowFormat event hnull htest] at h
      cases h
    | true =>
      rw [Bool.and_eq_true] at htest
      refine Or.inr ⟨htest, ?_⟩
      cases hname : ((event.get "processedData").get "serviceName").toStr with
      | error e =>
        rw [notification_service_error_name up env nowFormat event e hnull htest.1 htest.2
          hname] at h
        exact Or.inl (by rw [Except.error.inj h])
      | ok nameText =>
        cases hstatus : ((event.get "processedData").get "deploymentStatus").toStr with
        | error e =>
          rw [notification_service_error_status up env nowFormat event nameText e hnull
            htest.1 htest.2 hname hstatus] at h
          exact Or.inr ⟨nameText, rfl, by rw [Except.error.inj h]⟩
        | ok statusText =>
          rw [notification_service_event up env nowFormat event nameText statusText hnull
            htest.1 htest.2 hname hstatus] at h
          cases h

/-- C7 as stated fails: the processor throws a TypeError on a Proton service
status change whose templateMajorVersion is an object with an own property
toString; and on a processedData whose serviceName is such an object the
notifier throws a TypeError without calling publish, although the publish
call at hand never fails. -/
theorem C7_counterexample :
    processor.handler prodEnv "2025-05-01T00:00:00.000Z" (.object protonOddVersion)
      = .error .notPrimitive
    ∧ (∀ p, publishOk p = .ok ())
    ∧ (notifier.handler asciiUpperCase prodEnv publishOk "2025-05-01T00:00:01.000Z"
        "2025-05-01T00:00:02.000Z" (.object deploymentInputOddName)).result
      = .error (.typeError .notPrimitive)
    ∧ (notifier.handler asciiUpperCase prodEnv publishOk "2025-05-01T00:00:01.000Z"
        "2025-05-01T00:00:02.000Z" (.object deploymentInputOddName)).published = [] :=
  ⟨rfl, fun _ => rfl, rfl, rfl⟩

/-- C7, amended: with the publish call a function returning success or an
error. The processor returns on every event that is not `undefined` or `null`
and takes the generic branch, and on every Proton event whose two version
fields convert to strings; it throws only a TypeError: of reading a
`undefined` or `null` event, or of converting templateMajorVersion or
templateMinorVersion on the Proton branch. The notifier hands at most one
request to publish; it throws exactly when building the notification throws
or the publish call fails; building throws only a TypeError, of reading a
`undefined` or `null` event or of converting serviceName or deploymentStatus
when both are truthy, and then publish is not called; when publish fails the
notifier throws the very error publish raised, returning no value. -/
theorem C7_failure_sources {ε : Type} (toUpperCase : String → String) (env : ProcessEnv)
    (publish : PublishParams → Except ε Unit) (now nowFormat nowReceipt : String)
    (raw event : JSValue) :
    (raw.isNullish = false →
      ¬ (raw.get "source" = .string "aws.proton"
          ∧ raw.get "detail-type" = .string "Proton Service Status Change") →
      ∃ out, processor.handler env now raw = .ok out)
    ∧ (raw.isNullish = false →
        raw.get "source" = .string "aws.proton"
          ∧ raw.get "detail-type" = .string "Proton Service Status Change" →
        ∀ major minor,
          ((raw.get "detail").get "templateMajorVersion").toStr = .ok major →
          ((raw.get "detail").get "templateMinorVersion").toStr = .ok minor →
          ∃ out, processor.handler env now raw = .ok out)
    ∧ (∀ err, processor.handler env now raw = .error err →
        (raw.isNullish = true ∧ err = .nullishRead "source")
        ∨ ((raw.get "source" = .string "aws.proton"
              ∧ raw.get "detail-type" = .string "Proton Service Status Change")
            ∧ (((raw.get "detail").get "templateMajorVersion").toStr = .error err
                ∨ ∃ major,
                    ((raw.get "detail").get "templateMajorVersion").toStr = .ok major
                    ∧ ((raw.get "detail").get "templateMinorVersion").toStr
                        = .error err)))
    ∧ (notifier.handler toUpperCase env publish nowFormat nowReceipt event).published.length
        ≤ 1
    ∧ ((∃ thrown, (notifier.handler toUpperCase env publish nowFormat nowReceipt
                    event).result = .error thrown)
        ↔ ((∃ err, notifier.notification toUpperCase env nowFormat event = .error err)
            ∨ ∃ p ∈ (notifier.handler toUpperCase env publish nowFormat nowReceipt
                      event).published, ∃ e, publish p = .error e))
    ∧ (∀ err, notifier.notification toUpperCase env nowFormat event = .error err →
        (notifier.handler toUpperCase env publish nowFormat nowReceipt event).published = []
        ∧ (notifier.handler toUpperCase env publish nowFormat nowReceipt event).result
            = .error (.typeError err)
        ∧ ((event.isNullish = true ∧ err = .nullishRead "processedData")
            ∨ ((((event.get "processedData").get "serviceName").truthy = true
                  ∧ ((event.get "processedData").get "deploymentStatus").truthy = true)
                ∧ (((event.get "processedData").get "serviceName").toStr = .error err
                    ∨ ∃ nameText,
                        ((event.get "processedData").get "serviceName").toStr
                          = .ok nameText
                        ∧ ((event.get "processedData").get "deploymentStatus").toStr
                            = .error err))))
    ∧ (∀ p ∈ (notifier.handler toUpperCase env publish nowFormat nowReceipt
                event).published,
        ∀ e, publish p = .error e →
          (notifier.handler toUpperCase env publish nowFormat nowReceipt event).result
            = .error (.rejected e))
    ∧ (∀ e, (notifier.handler toUpperCase env publish nowFormat nowReceipt event).result
            = .error (.rejected e) →
        ∃ p ∈ (notifier.handler toUpperCase env publish nowFormat nowReceipt
                event).published, publish p = .error e) := by
  refine ⟨fun hnull hp => ⟨_, handler_generic_event env now raw hnull hp⟩,
    fun hnull hp major minor hmajor hminor =>
      ⟨_, handler_proton_event env now raw major minor hnull hp.1 hp.2 hmajor hminor⟩,
    fun err h => handler_error_cases env now raw err h, ?_⟩
  cases hfmt : notifier.notification toUpperCase env nowFormat event with
  | error t =>
    have hrun := handler_of_format_error toUpperCase env publish nowFormat nowReceipt
      event t hfmt
    rw [hrun]
    refine ⟨by simp, ?_, ?_, ?_, ?_⟩
    · exact ⟨fun _ => Or.inl ⟨t, rfl⟩, fun _ => ⟨_, rfl⟩⟩
    · intro err herr
      have ht : t = err := Except.error.inj herr
      subst ht
      exact ⟨rfl, rfl, notification_error_cases toUpperCase env nowFormat event t hfmt⟩
    · intro p hmem
      cases hmem
    · intro e he
      cases he
  | ok built =>
    obtain ⟨subject, body⟩ := built
    have hpub := handler_published toUpperCase env publish nowFormat nowReceipt event
      subject body hfmt
    rw [hpub]
    refine ⟨by simp, ?_, ?_, ?_, ?_⟩
    · cases hp : publish ⟨envValue env.NOTIFICATION_TOPIC_ARN, subject,
          JSON.stringify body 2⟩ with
      | error e =>
        rw [handler_result_error toUpperCase env publish nowFormat nowReceipt event
          subject body e hfmt hp]
        exact ⟨fun _ => Or.inr ⟨_, List.mem_singleton.mpr rfl, e, hp⟩, fun _ => ⟨_, rfl⟩⟩
      | ok u =>
        rw [handler_result_ok toUpperCase env publish nowFormat nowReceipt event
          subject body hfmt hp]
        constructor
        · rintro ⟨thrown, h⟩
          cases h
        · rintro (⟨err, h⟩ | ⟨p, hmem, e, he⟩)
          · cases h
          · rw [List.mem_singleton] at hmem
            subst hmem
            rw [hp] at he
            cases he
    · intro err herr
      cases herr
    · intro p hmem e he
      rw [List.mem_singleton] at hmem
      subst hmem
      exact handler_result_error toUpperCase env publish nowFormat nowReceipt event
        subject body e hfmt he
    · intro e he
      cases hp : publish ⟨envValue env.NOTIFICATION_TOPIC_ARN, subject,
          JSON.stringify body 2⟩ with
      | error e2 =>
        rw [handler_result_error toUpperCase env publish nowFormat nowReceipt event
          subject body e2 hfmt hp] at he
        have : e2 = e := Thrown.rejected.inj (Except.error.inj he)
        subst this
        exact ⟨_, List.mem_singleton.mpr rfl, hp⟩
      | ok u =>
        rw [handler_result_ok toUpperCase env publish nowFormat nowReceipt event
          subject body hfmt hp] at he
        cases he

/-- Witness of the amended C7 on a publish call that fails: the handler throws
the error publish raised, after one request; and on Scenario A the processor
returns. -/
theorem C7_failure_sources_witness :
    (notifier.handler asciiUpperCase prodEnv (publishFail "InvalidParameter")
        "2025-05-01T00:00:01.000Z" "2025-05-01T00:00:02.000Z"
        (.object deploymentInput)).result
      = .error (.rejected "InvalidParameter")
    ∧ (notifier.handler asciiUpperCase prodEnv (publishFail "InvalidParameter")
        "2025-05-01T00:00:01.000Z" "2025-05-01T00:00:02.000Z"
        (.object deploymentInput)).published.length ≤ 1
    ∧ ∃ out, processor.handler prodEnv "2025-05-01T00:00:00.000Z" (.object scenarioA)
        = .ok out := by
  obtain ⟨-, hret, -, hlen, -, -, hrej, -⟩ :=
    C7_failure_sources asciiUpperCase prodEnv (publishFail "InvalidParameter")
      "2025-05-01T00:00:00.000Z" "2025-05-01T00:00:01.000Z" "2025-05-01T00:00:02.000Z"
      (.object scenarioA) (.object deploymentInput)
  exact ⟨hrej _ (List.Mem.head _) _ rfl, hlen, hret rfl ⟨rfl, rfl⟩ "1" "2" rfl rfl⟩

/-- C8 as stated fails: on a processedData whose serviceName is an object with
an own property toString, the notifier throws a TypeError at the subject, so a
publish call that would succeed is never made (not exactly once) and the
handler returns no statusCode 200. -/
theorem C8_counterexample :
    (∀ p, publishOk p = .ok ())
    ∧ (notifier.handler asciiUpperCase prodEnv publishOk "2025-05-01T00:00:01.000Z"
        "2025-05-01T00:00:02.000Z" (.object deploymentInputOddName)).published = []
    ∧ (notifier.handler asciiUpperCase prodEnv publishOk "2025-05-01T00:00:01.000Z"
        "2025-05-01T00:00:02.000Z" (.object deploymentInputOddName)).result
      = .error (.typeError .notPrimitive) :=
  ⟨fun _ => rfl, rfl, rfl⟩

/-- C8, amended: for every notifier invocation on an input object that builds
its notification (subject and body) and whose publish call on the request
succeeds, publish is called exactly once, with Subject the subject built,
TopicArn the configured NOTIFICATION_TOPIC_ARN and Message the serialization
of the body built with 2-space indentation, and the handler returns
statusCode 200, body "Notification sent successfully" and notificationDetails
with that same subject and topicArn (and the clock reading taken after the
publish). -/
theorem C8_publish_once_and_receipt {ε : Type} (toUpperCase : String → String)
    (env : ProcessEnv) (publish : PublishParams → Except ε Unit)
    (nowFormat nowReceipt : String) (evProps : List (String × JSValue))
    (subject : String) (body : JSValue)
    (hbuilt : notifier.notification toUpperCase env nowFormat (.object evProps)
                = .ok (subject, body))
    (hok : publish ⟨envValue env.NOTIFICATION_TOPIC_ARN, subject, JSON.stringify body 2⟩
            = .ok ()) :
    (notifier.handler toUpperCase env publish nowFormat nowReceipt
        (.object evProps)).published
      = [⟨envValue env.NOTIFICATION_TOPIC_ARN, subject, JSON.stringify body 2⟩]
    ∧ (notifier.handler toUpperCase env publish nowFormat nowReceipt
          (.object evProps)).result
        = .ok (.object [("statusCode", .number (.ofInt 200)),
                        ("body", .string "Notification sent successfully"),
                        ("notificationDetails",
                          .object [("subject", .string subject),
                                   ("topicArn", envValue env.NOTIFICATION_TOPIC_ARN),
                                   ("timestamp", .string nowReceipt)])]) :=
  ⟨handler_published toUpperCase env publish nowFormat nowReceipt _ _ _ hbuilt,
    handler_result_ok toUpperCase env publish nowFormat nowReceipt _ _ _ hbuilt hok⟩

/-- Witness of the amended C8 on a service deployment whose templateName
holds a quote, a backslash, a line feed and U+0001 and whose templateVersion
is the number 1e21, with a publish call that succeeds: the one request, with
its message written out, and the returned receipt. -/
theorem C8_publish_once_and_receipt_witness :
    notifier.notification asciiUpperCase prodEnv "2025-05-01T00:00:01.000Z"
        (.object deploymentInputEscapes)
      = .ok ("[PROD] Proton Service orders-svc - SUCCEEDED",
          .object [("title", .string "Service Deployment SUCCEEDED"),
                   ("service", .string "orders-svc"),
                   ("status", .string "SUCCEEDED"),
                   ("template", .string "a\"b\\c\n\x01"),
                   ("version", .number ⟨"1e+21", false, true⟩),
                   ("timestamp", .string "2024-01-01T00:00:00Z"),
                   ("environment", .string "prod")])
    ∧ (notifier.handler asciiUpperCase prodEnv publishOk "2025-05-01T00:00:01.000Z"
          "2025-05-01T00:00:02.000Z" (.object deploymentInputEscapes)).published
        = [⟨.string "arn:aws:sns:ap-southeast-2:123456789012:demo",
            "[PROD] Proton Service orders-svc - SUCCEEDED",
            .string ("\x7b\n  \"title\": \"Service Deployment SUCCEEDED\",\n"
              ++ "  \"service\": \"orders-svc\",\n"
              ++ "  \"status\": \"SUCCEEDED\",\n"
              ++ "  \"template\": \"a\\\"b\\\\c\\n\\u0001\",\n"
              ++ "  \"version\": 1e+21,\n"
              ++ "  \"timestamp\": \"2024-01-01T00:00:00Z\",\n"
              ++ "  \"environment\": \"prod\"\n\x7d")⟩]
    ∧ (notifier.handler asciiUpperCase prodEnv publishOk "2025-05-01T00:00:01.000Z"
          "2025-05-01T00:00:02.000Z" (.object deploymentInputEscapes)).result
        = .ok (.object [("statusCode", .number (.ofInt 200)),
                        ("body", .string "Notification sent successfully"),
                        ("notificationDetails",
                          .object [("subject",
                                      .string "[PROD] Proton Service orders-svc - SUCCEEDED"),
                                   ("topicArn",
                                      .string "arn:aws:sns:ap-southeast-2:123456789012:demo"),
                                   ("timestamp", .string "2025-05-01T00:00:02.000Z")])]) :=
  have hbuilt : notifier.notification asciiUpperCase prodEnv "2025-05-01T00:00:01.000Z"
        (.object deploymentInputEscapes)
      = .ok ("[PROD] Proton Service orders-svc - SUCCEEDED",
          .object [("title", .string "Service Deployment SUCCEEDED"),
                   ("service", .string "orders-svc"),
                   ("status", .string "SUCCEEDED"),
                   ("template", .string "a\"b\\c\n\x01"),
                   ("version", .number ⟨"1e+21", false, true⟩),
                   ("timestamp", .string "2024-01-01T00:00:00Z"),
                   ("environment", .string "prod")]) := rfl
  ⟨hbuilt,
    C8_publish_once_and_receipt asciiUpperCase prodEnv publishOk "2025-05-01T00:00:01.000Z"
      "2025-05-01T00:00:02.000Z" deploymentInputEscapes _ _ hbuilt rfl⟩

/-- The serialization algorithm on a value with every kind of member: an
absent property is left out, an absent array element and a number that is not
finite are `null`, empty containers stay on one line, and the escapes of
`QuoteJSONString` apply to keys and strings alike. -/
theorem stringify_example :
    JSON.stringify
        (.object [("a\tb", .array [.undefined, .null, .bool true, .object [], .array []]),
                  ("skipped", .undefined),
                  ("inf", .number ⟨"Infinity", false, false⟩),
                  ("half", .number ⟨"0.5", false, true⟩),
                  ("s", .string "\x08\x0c\r\x1f/é")]) 2
      = .string ("\x7b\n  \"a\\tb\": [\n    null,\n    null,\n    true,\n    \x7b\x7d,\n"
          ++ "    []\n  ],\n  \"inf\": null,\n  \"half\": 0.5,\n"
          ++ "  \"s\": \"\\b\\f\\r\\u001f/é\"\n\x7d") := rfl

/-! ## Invariants -/

theorem envOr_unset (v : Option String) (fallback : String)
    (h : v = none ∨ v = some "") : envOr v fallback = fallback := by
  rcases h with h | h <;> rw [h] <;> rfl

theorem envOr_set (v : Option String) (fallback s : String) (h : v = some s)
    (hs : s ≠ "") : envOr v fallback = s := by
  rw [h]
  simp [envOr, hs]

/-- C9 as stated fails: on a processedData whose serviceName is an object with
an own property toString, the notifier throws a TypeError while building the
subject, so this input has no subject and no body, and nothing is published. -/
theorem C9_counterexample :
    notifier.notification asciiUpperCase prodEnv "2025-05-01T00:00:01.000Z"
        (.object deploymentInputOddName) = .error .notPrimitive
    ∧ (notifier.handler asciiUpperCase prodEnv publishOk "2025-05-01T00:00:01.000Z"
        "2025-05-01T00:00:02.000Z" (.object deploymentInputOddName)).published = [] :=
  ⟨rfl, rfl⟩

/-- C9, amended: for every input object of the notifier on which a
notification is built, which is every input on the generic branch and every
input on the service-deployment branch whose serviceName and deploymentStatus
convert to strings, the subject built and published is "[" followed by the
upper-cased environment name and "]" and then the rest, and body.environment
is that environment name as it is, where the environment name is ENVIRONMENT,
or "unknown" when ENVIRONMENT is unset or empty. On the remaining inputs the
notifier throws the TypeError of the conversion. -/
theorem C9_subject_environment_tag {ε : Type} (toUpperCase : String → String)
    (env : ProcessEnv) (publish : PublishParams → Except ε Unit)
    (nowFormat nowReceipt : String) (evProps : List (String × JSValue)) :
    (∀ subject body,
      notifier.notification toUpperCase env nowFormat (.object evProps)
        = .ok (subject, body) →
      (∃ rest,
        subject = "[" ++ toUpperCase (envOr env.ENVIRONMENT "unknown") ++ "]" ++ rest)
      ∧ (notifier.handler toUpperCase env publish nowFormat nowReceipt
            (.object evProps)).published
          = [⟨envValue env.NOTIFICATION_TOPIC_ARN, subject, JSON.stringify body 2⟩]
      ∧ body.get "environment" = .string (envOr env.ENVIRONMENT "unknown"))
    ∧ ((((lookup evProps "processedData").get "serviceName").truthy
          && ((lookup evProps "processedData").get "deploymentStatus").truthy) = false →
        ∃ subject body,
          notifier.notification toUpperCase env nowFormat (.object evProps)
            = .ok (subject, body))
    ∧ (∀ nameText statusText,
        ((lookup evProps "processedData").get "serviceName").truthy = true →
        ((lookup evProps "processedData").get "deploymentStatus").truthy = true →
        ((lookup evProps "processedData").get "serviceName").toStr = .ok nameText →
        ((lookup evProps "processedData").get "deploymentStatus").toStr = .ok statusText →
        ∃ subject body,
          notifier.notification toUpperCase env nowFormat (.object evProps)
            = .ok (subject, body))
    ∧ (∀ err,
        ((lookup evProps "processedData").get "serviceName").truthy = true →
        ((lookup evProps "processedData").get "deploymentStatus").truthy = true →
        ((lookup evProps "processedData").get "serviceName").toStr = .error err
          ∨ (∃ nameText,
              ((lookup evProps "processedData").get "serviceName").toStr = .ok nameText
              ∧ ((lookup evProps "processedData").get "deploymentStatus").toStr
                  = .error err) →
        notifier.notification toUpperCase env nowFormat (.object evProps) = .error err)
    ∧ (env.ENVIRONMENT = none ∨ env.ENVIRONMENT = some "" →
        envOr env.ENVIRONMENT "unknown" = "unknown")
    ∧ (∀ s, env.ENVIRONMENT = some s → s ≠ "" → envOr env.ENVIRONMENT "unknown" = s) := by
  refine ⟨?_, fun h => ⟨_, _, notification_generic toUpperCase env nowFormat evProps h⟩,
    fun nameText statusText hn hd hname hstatus =>
      ⟨_, _, notification_service toUpperCase env nowFormat evProps nameText statusText
        hn hd hname hstatus⟩,
    fun err hn hd herr =>
      notification_service_error toUpperCase env nowFormat evProps err hn hd herr,
    envOr_unset _ _, fun s h hs => envOr_set _ _ s h hs⟩
  intro subject body hbuilt
  refine ⟨?_, handler_published toUpperCase env publish nowFormat nowReceipt _ _ _ hbuilt,
    ?_⟩
  · cases h : (((lookup evProps "processedData").get "serviceName").truthy
          && ((lookup evProps "processedData").get "deploymentStatus").truthy) with
    | false =>
      rw [notification_generic toUpperCase env nowFormat evProps h] at hbuilt
      obtain ⟨hs, -⟩ := Prod.mk.inj (Except.ok.inj hbuilt)
      refine ⟨" Platform Event Notification", ?_⟩
      rw [← hs, String.append_assoc ("[" ++ _) "]" " Platform Event Notification"]
      rfl
    | true =>
      rw [Bool.and_eq_true] at h
      cases hname : ((lookup evProps "processedData").get "serviceName").toStr with
      | error e =>
        rw [notification_service_error toUpperCase env nowFormat evProps e h.1 h.2
          (Or.inl hname)] at hbuilt
        cases hbuilt
      | ok nameText =>
        cases hstatus : ((lookup evProps "processedData").get "deploymentStatus").toStr with
        | error e =>
          rw [notification_service_error toUpperCase env nowFormat evProps e h.1 h.2
            (Or.inr ⟨nameText, hname, hstatus⟩)] at hbuilt
          cases hbuilt
        | ok statusText =>
          rw [notification_service toUpperCase env nowFormat evProps nameText statusText
            h.1 h.2 hname hstatus] at hbuilt
          obtain ⟨hs, -⟩ := Prod.mk.inj (Except.ok.inj hbuilt)
          refine ⟨" Proton Service " ++ nameText ++ " - " ++ statusText, ?_⟩
          rw [← hs]
          have e0 : ("] Proton Service " : String) = "]" ++ " Proton Service " := rfl
          rw [e0]
          simp only [String.append_assoc]
  · cases h : (((lookup evProps "processedData").get "serviceName").truthy
          && ((lookup evProps "processedData").get "deploymentStatus").truthy) with
    | false =>
      rw [notification_generic toUpperCase env nowFormat evProps h] at hbuilt
      obtain ⟨-, hb⟩ := Prod.mk.inj (Except.ok.inj hbuilt)
      rw [← hb]
      rfl
    | true =>
      rw [Bool.and_eq_true] at h
      cases hname : ((lookup evProps "processedData").get "serviceName").toStr with
      | error e =>
        rw [notification_service_error toUpperCase env nowFormat evProps e h.1 h.2
          (Or.inl hname)] at hbuilt
        cases hbuilt
      | ok nameText =>
        cases hstatus : ((lookup evProps "processedData").get "deploymentStatus").toStr with
        | error e =>
          rw [notification_service_error toUpperCase env nowFormat evProps e h.1 h.2
            (Or.inr ⟨nameText, hname, hstatus⟩)] at hbuilt
          cases hbuilt
        | ok statusText =>
          rw [notification_service toUpperCase env nowFormat evProps nameText statusText
            h.1 h.2 hname hstatus] at hbuilt
          obtain ⟨-, hb⟩ := Prod.mk.inj (Except.ok.inj hbuilt)
          rw [← hb]
          rfl

/-- Witness of the amended C9 with the ASCII upper-casing: under
ENVIRONMENT=prod a service deployment gets the tag "[PROD]" and environment
"prod", and with ENVIRONMENT unset a generic event gets "[UNKNOWN]" and
"unknown". -/
theorem C9_subject_environment_tag_witness :
    (∃ rest body,
      notifier.notification asciiUpperCase prodEnv "2025-05-01T00:00:01.000Z"
          (.object deploymentInput) = .ok ("[PROD]" ++ rest, body)
      ∧ body.get "environment" = .string "prod")
    ∧ (∃ rest body,
        notifier.notification asciiUpperCase unsetEnv "2025-05-01T00:00:01.000Z"
            (.object genericInput) = .ok ("[UNKNOWN]" ++ rest, body)
        ∧ body.get "environment" = .string "unknown") := by
  have h1 : notifier.notification asciiUpperCase prodEnv "2025-05-01T00:00:01.000Z"
      (.object deploymentInput)
        = .ok ("[PROD] Proton Service orders-svc - SUCCEEDED",
            .object [("title", .string "Service Deployment SUCCEEDED"),
                     ("service", .string "orders-svc"),
                     ("status", .string "SUCCEEDED"),
                     ("template", .string "lambda-service"),
                     ("version", .string "1.2"),
                     ("timestamp", .string "2024-01-01T00:00:00Z"),
                     ("environment", .string "prod")]) := rfl
  have h2 : notifier.notification asciiUpperCase unsetEnv "2025-05-01T00:00:01.000Z"
      (.object genericInput)
        = .ok ("[UNKNOWN] Platform Event Notification",
            .object [("title", .string "Platform Event Processed"),
                     ("eventType", .string "Something"),
                     ("source", .string "custom.app"),
                     ("timestamp", .string "2025-05-01T00:00:01.000Z"),
                     ("details", lookup genericInput "processedData"),
                     ("environment", .string "unknown")]) := rfl
  obtain ⟨⟨rest1, hr1⟩, -, he1⟩ :=
    (C9_subject_environment_tag asciiUpperCase prodEnv publishOk "2025-05-01T00:00:01.000Z"
      "2025-05-01T00:00:02.000Z" deploymentInput).1 _ _ h1
  obtain ⟨⟨rest2, hr2⟩, -, he2⟩ :=
    (C9_subject_environment_tag asciiUpperCase unsetEnv publishOk "2025-05-01T00:00:01.000Z"
      "2025-05-01T00:00:02.000Z" genericInput).1 _ _ h2
  refine ⟨⟨rest1, _, ?_, he1⟩, ⟨rest2, _, ?_, he2⟩⟩
  · rw [h1, hr1]; rfl
  · rw [h2, hr2]; rfl

theorem handler_generic_inv (env : ProcessEnv) (now : String)
    (props : List (String × JSValue)) (out : JSValue)
    (hg : ¬ (lookup props "source" = .string "aws.proton"
          ∧ lookup props "detail-type" = .string "Proton Service Status Change"))
    (h : processor.handler env now (.object props) = .ok out) :
    out = response (genericData env now (lookup props "source")
        (lookup props "detail-type") (lookup props "detail")) (.object props) := by
  rw [handler_generic env now props hg] at h
  exact (Except.ok.inj h).symm

/-- C10 as stated fails: on a Proton service status change whose
lastDeploymentSucceededAt is the empty array, a field that is present but
empty, the processedData's timestamp is that empty array, neither a non-empty
timestamp nor the current time. -/
theorem C10_counterexample :
    lookup protonEmptyArrayTimestamp "source" = .string "aws.proton"
    ∧ lookup protonEmptyArrayTimestamp "detail-type"
        = .string "Proton Service Status Change"
    ∧ (lookup protonEmptyArrayTimestamp "detail").get "lastDeploymentSucceededAt"
        = .array []
    ∧ ∃ out,
        processor.handler prodEnv "2025-05-01T00:00:00.000Z"
            (.object protonEmptyArrayTimestamp) = .ok out
        ∧ (out.get "processedData").get "timestamp" = .array []
        ∧ (out.get "processedData").get "timestamp" ≠ .string "2025-05-01T00:00:00.000Z" := by
  refine ⟨rfl, rfl, rfl, _, rfl, rfl, ?_⟩
  intro h
  cases h

/-- C10, amended: given that the clock reading is a non-empty string, every
processedData the processor returns for a raw event envelope has a truthy
timestamp (not absent, not the empty string). On the Proton path it is
detail.lastDeploymentSucceededAt when that field is truthy (for a string:
present and non-empty; an array or an object counts even when empty) and the
clock reading otherwise; on the other path it is always the clock reading,
whatever the detail carries. The processor returns on every event of the
other path, and on every Proton event whose version fields convert to
strings. -/
theorem C10_timestamp (env : ProcessEnv) (now : String)
    (props : List (String × JSValue)) (hnow : now ≠ "") :
    (∀ out, processor.handler env now (.object props) = .ok out →
      ((out.get "processedData").get "timestamp").truthy = true
      ∧ (out.get "processedData").get "timestamp" ≠ .undefined
      ∧ (out.get "processedData").get "timestamp" ≠ .string ""
      ∧ (lookup props "source" = .string "aws.proton"
          ∧ lookup props "detail-type" = .string "Proton Service Status Change" →
          (((lookup props "detail").get "lastDeploymentSucceededAt").truthy = true →
            (out.get "processedData").get "timestamp"
              = (lookup props "detail").get "lastDeploymentSucceededAt")
          ∧ (((lookup props "detail").get "lastDeploymentSucceededAt").truthy = false →
            (out.get "processedData").get "timestamp" = .string now)
          ∧ (∀ s, (lookup props "detail").get "lastDeploymentSucceededAt" = .string s →
              s ≠ "" → (out.get "processedData").get "timestamp" = .string s)
          ∧ ((lookup props "detail").get "lastDeploymentSucceededAt" = .undefined
              ∨ (lookup props "detail").get "lastDeploymentSucceededAt" = .string "" →
              (out.get "processedData").get "timestamp" = .string now))
      ∧ (¬ (lookup props "source" = .string "aws.proton"
            ∧ lookup props "detail-type" = .string "Proton Service Status Change") →
          (out.get "processedData").get "timestamp" = .string now))
    ∧ (¬ (lookup props "source" = .string "aws.proton"
          ∧ lookup props "detail-type" = .string "Proton Service Status Change") →
        ∃ out, processor.handler env now (.object props) = .ok out)
    ∧ (lookup props "source" = .string "aws.proton"
        ∧ lookup props "detail-type" = .string "Proton Service Status Change" →
        ∀ major minor,
          ((lookup props "detail").get "templateMajorVersion").toStr = .ok major →
          ((lookup props "detail").get "templateMinorVersion").toStr = .ok minor →
          ∃ out, processor.handler env now (.object props) = .ok out) := by
  have hne : ∀ v : JSValue, v.truthy = true → v ≠ .undefined ∧ v ≠ .string "" := by
    intro v hv
    constructor <;> intro h <;> rw [h] at hv <;> simp [JSValue.truthy] at hv
  refine ⟨?_, fun hg => ⟨_, handler_generic env now props hg⟩,
    fun hp major minor hmajor hminor =>
      ⟨_, handler_proton env now props major minor hp.1 hp.2 hmajor hminor⟩⟩
  intro out hout
  by_cases h : lookup props "source" = .string "aws.proton"
      ∧ lookup props "detail-type" = .string "Proton Service Status Change"
  · obtain ⟨major, minor, -, -, ho⟩ := handler_proton_inv env now props out h.1 h.2 hout
    subst ho
    have htruthy : (((lookup props "detail").get "lastDeploymentSucceededAt").or
        (.string now)).truthy = true := by
      cases ht : ((lookup props "detail").get "lastDeploymentSucceededAt").truthy
      · rw [or_of_not_truthy _ _ ht]; exact truthy_string now hnow
      · rw [or_of_truthy _ _ ht]; exact ht
    refine ⟨htruthy, (hne _ htruthy).1, (hne _ htruthy).2, ?_, fun hn => absurd h hn⟩
    intro _
    refine ⟨fun ht => or_of_truthy _ _ ht, fun ht => or_of_not_truthy _ _ ht, ?_, ?_⟩
    · intro s hs hsne
      show ((lookup props "detail").get "lastDeploymentSucceededAt").or (.string now) = _
      rw [hs]
      exact or_of_truthy _ _ (truthy_string s hsne)
    · intro hs
      show ((lookup props "detail").get "lastDeploymentSucceededAt").or (.string now) = _
      rcases hs with hs | hs <;> rw [hs] <;> rfl
  · have ho := handler_generic_inv env now props out h hout
    subst ho
    exact ⟨truthy_string now hnow, (hne _ (truthy_string now hnow)).1,
      (hne _ (truthy_string now hnow)).2, fun hp => absurd hp h, fun _ => rfl⟩

/-- Witness of the amended C10: on Scenario A the timestamp is the detail's
lastDeploymentSucceededAt, and on an event of another source that carries the
same field it is the clock reading. -/
theorem C10_timestamp_witness :
    ("2025-05-01T00:00:00.000Z" : String) ≠ ""
    ∧ (∃ out, processor.handler prodEnv "2025-05-01T00:00:00.000Z" (.object scenarioA)
          = .ok out
        ∧ (out.get "processedData").get "timestamp" = .string "2024-01-01T00:00:00Z")
    ∧ (∃ out, processor.handler prodEnv "2025-05-01T00:00:00.000Z"
            (.object otherWithTimestamp) = .ok out
        ∧ (out.get "processedData").get "timestamp" = .string "2025-05-01T00:00:00.000Z") := by
  obtain ⟨hA, -, hretA⟩ :=
    C10_timestamp prodEnv "2025-05-01T00:00:00.000Z" scenarioA (by decide)
  obtain ⟨hB, hretB, -⟩ :=
    C10_timestamp prodEnv "2025-05-01T00:00:00.000Z" otherWithTimestamp (by decide)
  have hg : ¬ (lookup otherWithTimestamp "source" = .string "aws.proton"
        ∧ lookup otherWithTimestamp "detail-type"
            = .string "Proton Service Status Change") := by
    simp [otherWithTimestamp, JSValue.lookup]
  obtain ⟨outA, hoA⟩ := hretA ⟨rfl, rfl⟩ "1" "2" rfl rfl
  obtain ⟨outB, hoB⟩ := hretB hg
  exact ⟨by decide, ⟨outA, hoA, ((hA outA hoA).2.2.2.1 ⟨rfl, rfl⟩).1 rfl⟩,
    ⟨outB, hoB, (hB outB hoB).2.2.2.2 hg⟩⟩

/-! ## Frame properties of the processor -/

theorem lookup_append_of_absent (xs ys : List (String × JSValue)) (key : String)
    (h : ∀ p ∈ ys, p.1 ≠ key) : lookup (xs ++ ys) key = lookup xs key := by
  induction xs with
  | nil =>
    induction ys with
    | nil => rfl
    | cons y rest ih =>
      obtain ⟨k, v⟩ := y
      have hk : k ≠ key := h (k, v) (List.mem_cons_self _ _)
      have hrest : ∀ p ∈ rest, p.1 ≠ key := fun p hp => h p (List.mem_cons_of_mem _ hp)
      simp only [List.nil_append] at ih ⊢
      simp only [JSValue.lookup, if_neg hk]
      exact ih hrest
  | cons x rest ih =>
    obtain ⟨k, v⟩ := x
    by_cases hk : k = key
    · simp [JSValue.lookup, hk]
    · simp only [List.cons_append, JSValue.lookup, if_neg hk]
      exact ih

/-- C11: for every raw event envelope, on both branches, the processedData the
processor returns is the branch's object literal followed by environment and
region, with environment = ENVIRONMENT and region = AWS_REGION, each "unknown"
when the variable is unset or empty; every property other than these two reads
as it does in the branch's literal. The processor returns on every event of
the generic branch, and on every Proton event whose version fields convert to
strings. -/
theorem C11_environment_region (env : ProcessEnv) (now : String)
    (props : List (String × JSValue)) :
    (∀ out, processor.handler env now (.object props) = .ok out →
      ∃ base,
        (lookup props "source" = .string "aws.proton"
            ∧ lookup props "detail-type" = .string "Proton Service Status Change" →
            processor.serviceDeployment ((lookup props "detail").or (.object [])) now
              = .ok base)
        ∧ (¬ (lookup props "source" = .string "aws.proton"
              ∧ lookup props "detail-type" = .string "Proton Service Status Change") →
            processor.generic ((lookup props "source").or (.string "unknown"))
              ((lookup props "detail-type").or (.string "unknown"))
              ((lookup props "detail").or (.object [])) now = base)
        ∧ out.get "processedData"
            = .object (base ++ [("environment", .string (envOr env.ENVIRONMENT "unknown")),
                                ("region", .string (envOr env.AWS_REGION "unknown"))])
        ∧ (out.get "processedData").get "environment"
            = .string (envOr env.ENVIRONMENT "unknown")
        ∧ (out.get "processedData").get "region"
            = .string (envOr env.AWS_REGION "unknown")
        ∧ ∀ key, key ≠ "environment" → key ≠ "region" →
            (out.get "processedData").get key = lookup base key)
    ∧ (¬ (lookup props "source" = .string "aws.proton"
          ∧ lookup props "detail-type" = .string "Proton Service Status Change") →
        ∃ out, processor.handler env now (.object props) = .ok out)
    ∧ (lookup props "source" = .string "aws.proton"
        ∧ lookup props "detail-type" = .string "Proton Service Status Change" →
        ∀ major minor,
          ((lookup props "detail").get "templateMajorVersion").toStr = .ok major →
          ((lookup props "detail").get "templateMinorVersion").toStr = .ok minor →
          ∃ out, processor.handler env now (.object props) = .ok out)
    ∧ (env.ENVIRONMENT = none ∨ env.ENVIRONMENT = some "" →
        envOr env.ENVIRONMENT "unknown" = "unknown")
    ∧ (∀ s, env.ENVIRONMENT = some s → s ≠ "" → envOr env.ENVIRONMENT "unknown" = s)
    ∧ (env.AWS_REGION = none ∨ env.AWS_REGION = some "" →
        envOr env.AWS_REGION "unknown" = "unknown")
    ∧ (∀ s, env.AWS_REGION = some s → s ≠ "" → envOr env.AWS_REGION "unknown" = s) := by
  have frame : ∀ (base : List (String × JSValue)) (key : String),
      key ≠ "environment" → key ≠ "region" →
      lookup (base ++ [("environment", .string (envOr env.ENVIRONMENT "unknown")),
                       ("region", .string (envOr env.AWS_REGION "unknown"))]) key
        = lookup base key := by
    intro base key h1 h2
    apply lookup_append_of_absent
    intro p hp
    simp only [List.mem_cons, List.mem_singleton, List.not_mem_nil, or_false] at hp
    rcases hp with hp | hp <;> rw [hp]
    · exact fun h => h1 h.symm
    · exact fun h => h2 h.symm
  refine ⟨?_, fun hg => ⟨_, handler_generic env now props hg⟩,
    fun hp major minor hmajor hminor =>
      ⟨_, handler_proton env now props major minor hp.1 hp.2 hmajor hminor⟩,
    envOr_unset _ _, fun s h hs => envOr_set _ _ s h hs, envOr_unset _ _,
    fun s h hs => envOr_set _ _ s h hs⟩
  intro out hout
  by_cases h : lookup props "source" = .string "aws.proton"
      ∧ lookup props "detail-type" = .string "Proton Service Status Change"
  · obtain ⟨major, minor, hmajor, hminor, ho⟩ :=
      handler_proton_inv env now props out h.1 h.2 hout
    subst ho
    refine ⟨[("serviceName", (lookup props "detail").get "name"),
        ("status", (lookup props "detail").get "status"),
        ("deploymentStatus", (lookup props "detail").get "deploymentStatus"),
        ("templateName", (lookup props "detail").get "templateName"),
        ("templateVersion", .string (major ++ "." ++ minor)),
        ("timestamp", ((lookup props "detail").get "lastDeploymentSucceededAt").or
          (.string now))], ?_, ?_, rfl, rfl, rfl, ?_⟩
    · intro _
      exact serviceDeployment_ok _ now major minor hmajor hminor
    · intro hn
      exact absurd h hn
    · intro key h1 h2
      exact frame [("serviceName", (lookup props "detail").get "name"),
        ("status", (lookup props "detail").get "status"),
        ("deploymentStatus", (lookup props "detail").get "deploymentStatus"),
        ("templateName", (lookup props "detail").get "templateName"),
        ("templateVersion", .string (major ++ "." ++ minor)),
        ("timestamp", ((lookup props "detail").get "lastDeploymentSucceededAt").or
          (.string now))] key h1 h2
  · have ho := handler_generic_inv env now props out h hout
    subst ho
    refine ⟨processor.generic ((lookup props "source").or (.string "unknown"))
        ((lookup props "detail-type").or (.string "unknown"))
        ((lookup props "detail").or (.object [])) now, ?_, ?_, rfl, rfl, rfl, ?_⟩
    · intro hp
      exact absurd hp h
    · intro _
      rfl
    · intro key h1 h2
      exact frame (processor.generic ((lookup props "source").or (.string "unknown"))
        ((lookup props "detail-type").or (.string "unknown"))
        ((lookup props "detail").or (.object [])) now) key h1 h2

/-- Witness of C11: Scenario A under ENVIRONMENT=prod and a set region, and
Scenario B with nothing set. -/
theorem C11_environment_region_witness :
    (∃ out, processor.handler prodEnv "2025-05-01T00:00:00.000Z" (.object scenarioA)
        = .ok out
      ∧ (out.get "processedData").get "environment" = .string "prod"
      ∧ (out.get "processedData").get "region" = .string "ap-southeast-2"
      ∧ (out.get "processedData").get "serviceName" = .string "orders-svc")
    ∧ (∃ out, processor.handler unsetEnv "2025-05-01T00:00:00.000Z" (.object scenarioB)
        = .ok out
      ∧ (out.get "processedData").get "environment" = .string "unknown"
      ∧ (out.get "processedData").get "region" = .string "unknown"
      ∧ (out.get "processedData").get "eventType" = .string "Something") := by
  obtain ⟨hA, -, hretA, -⟩ :=
    C11_environment_region prodEnv "2025-05-01T00:00:00.000Z" scenarioA
  obtain ⟨hB, hretB, -, -⟩ :=
    C11_environment_region unsetEnv "2025-05-01T00:00:00.000Z" scenarioB
  have hg : ¬ (lookup scenarioB "source" = .string "aws.proton"
        ∧ lookup scenarioB "detail-type" = .string "Proton Service Status Change") := by
    simp [scenarioB, JSValue.lookup]
  obtain ⟨outA, hoA⟩ := hretA ⟨rfl, rfl⟩ "1" "2" rfl rfl
  obtain ⟨outB, hoB⟩ := hretB hg
  obtain ⟨base, hb, -, -, he, hr, hframe⟩ := hA outA hoA
  obtain ⟨base2, -, gb, -, ge, gr, gframe⟩ := hB outB hoB
  have hbase := Except.ok.inj (hb ⟨rfl, rfl⟩)
  have gbase := gb hg
  refine ⟨⟨outA, hoA, he, hr, ?_⟩, ⟨outB, hoB, ge, gr, ?_⟩⟩
  · rw [hframe "serviceName" (by decide) (by decide), ← hbase]
    rfl
  · rw [gframe "eventType" (by decide) (by decide), ← gbase]
    rfl

/-- C12 as stated fails: on a Proton service status change whose
templateMajorVersion is an object with an own property toString the handler
throws a TypeError; it returns neither statusCode 200 nor a rawEvent. -/
theorem C12_counterexample :
    processor.handler prodEnv "2025-05-01T00:00:00.000Z" (.object protonOddVersion)
      = .error .notPrimitive
    ∧ ¬ ∃ out, processor.handler prodEnv "2025-05-01T00:00:00.000Z"
          (.object protonOddVersion) = .ok out := by
  refine ⟨rfl, ?_⟩
  rintro ⟨out, h⟩
  have h2 : processor.handler prodEnv "2025-05-01T00:00:00.000Z" (.object protonOddVersion)
      = .error .notPrimitive := rfl
  rw [h2] at h
  cases h

/-- C12, amended: for every raw event envelope on which the processor
returns, which is every event of the generic branch and every Proton event
whose two version fields convert to strings, it returns an object with
exactly the properties statusCode, processedData and rawEvent, where
statusCode is 200 and rawEvent is the input event itself; on a Proton event
with a version field that does not convert it throws that TypeError. -/
theorem C12_status_and_raw_event (env : ProcessEnv) (now : String)
    (props : List (String × JSValue)) :
    (∀ out, processor.handler env now (.object props) = .ok out →
      (∃ pd, out = .object [("statusCode", .number (.ofInt 200)),
                            ("processedData", pd),
                            ("rawEvent", .object props)])
      ∧ out.get "statusCode" = .number (.ofInt 200)
      ∧ out.get "rawEvent" = .object props)
    ∧ (¬ (lookup props "source" = .string "aws.proton"
          ∧ lookup props "detail-type" = .string "Proton Service Status Change") →
        ∃ out, processor.handler env now (.object props) = .ok out)
    ∧ (lookup props "source" = .string "aws.proton"
        ∧ lookup props "detail-type" = .string "Proton Service Status Change" →
        ∀ major minor,
          ((lookup props "detail").get "templateMajorVersion").toStr = .ok major →
          ((lookup props "detail").get "templateMinorVersion").toStr = .ok minor →
          ∃ out, processor.handler env now (.object props) = .ok out)
    ∧ (lookup props "source" = .string "aws.proton"
        ∧ lookup props "detail-type" = .string "Proton Service Status Change" →
        ∀ err,
          ((lookup props "detail").get "templateMajorVersion").toStr = .error err
            ∨ (∃ major,
                ((lookup props "detail").get "templateMajorVersion").toStr = .ok major
                ∧ ((lookup props "detail").get "templateMinorVersion").toStr
                    = .error err) →
          processor.handler env now (.object props) = .error err) := by
  refine ⟨?_, fun hg => ⟨_, handler_generic env now props hg⟩,
    fun hp major minor hmajor hminor =>
      ⟨_, handler_proton env now props major minor hp.1 hp.2 hmajor hminor⟩, ?_⟩
  rotate_left
  · intro hp err herr
    rcases herr with h | ⟨major, h1, h2⟩
    · exact handler_proton_error env now props err hp.1 hp.2
        (serviceDeployment_error_major _ now err h)
    · exact handler_proton_error env now props err hp.1 hp.2
        (serviceDeployment_error_minor _ now major err h1 h2)
  intro out hout
  by_cases h : lookup props "source" = .string "aws.proton"
      ∧ lookup props "detail-type" = .string "Proton Service Status Change"
  · obtain ⟨major, minor, -, -, ho⟩ := handler_proton_inv env now props out h.1 h.2 hout
    subst ho
    exact ⟨⟨_, rfl⟩, rfl, rfl⟩
  · have ho := handler_generic_inv env now props out h hout
    subst ho
    exact ⟨⟨_, rfl⟩, rfl, rfl⟩

/-- Witness of the amended C12 on Scenario A and Scenario B. -/
theorem C12_status_and_raw_event_witness :
    (∃ out, processor.handler prodEnv "2025-05-01T00:00:00.000Z" (.object scenarioA)
        = .ok out
      ∧ out.get "statusCode" = .number (.ofInt 200)
      ∧ out.get "rawEvent" = .object scenarioA)
    ∧ (∃ out, processor.handler prodEnv "2025-05-01T00:00:00.000Z" (.object scenarioB)
        = .ok out
      ∧ out.get "statusCode" = .number (.ofInt 200)
      ∧ out.get "rawEvent" = .object scenarioB) := by
  obtain ⟨hA, -, hretA, -⟩ :=
    C12_status_and_raw_event prodEnv "2025-05-01T00:00:00.000Z" scenarioA
  obtain ⟨hB, hretB, -, -⟩ :=
    C12_status_and_raw_event prodEnv "2025-05-01T00:00:00.000Z" scenarioB
  obtain ⟨outA, hoA⟩ := hretA ⟨rfl, rfl⟩ "1" "2" rfl rfl
  obtain ⟨outB, hoB⟩ := hretB (by simp [scenarioB, JSValue.lookup])
  exact ⟨⟨outA, hoA, (hA outA hoA).2⟩, ⟨outB, hoB, (hB outB hoB).2⟩⟩

/-! ## Determinism of formatting -/

theorem notification_service_indep (up : String → String) (env1 env2 : ProcessEnv)
    (t1 t2 : String) (ev1 ev2 : List (String × JSValue))
    (hpd : lookup ev1 "processedData" = lookup ev2 "processedData")
    (henv : env1.ENVIRONMENT = env2.ENVIRONMENT)
    (hn : ((lookup ev1 "processedData").get "serviceName").truthy = true)
    (hd : ((lookup ev1 "processedData").get "deploymentStatus").truthy = true) :
    notifier.notification up env1 t1 (.object ev1)
      = notifier.notification up env2 t2 (.object ev2) := by
  have hn2 : ((lookup ev2 "processedData").get "serviceName").truthy = true := by
    rw [← hpd]; exact hn
  have hd2 : ((lookup ev2 "processedData").get "deploymentStatus").truthy = true := by
    rw [← hpd]; exact hd
  cases hname : ((lookup ev1 "processedData").get "serviceName").toStr with
  | error e =>
    rw [notification_service_error up env1 t1 ev1 e hn hd (Or.inl hname),
      notification_service_error up env2 t2 ev2 e hn2 hd2 (Or.inl (by rw [← hpd]; exact hname))]
  | ok nameText =>
    cases hstatus : ((lookup ev1 "processedData").get "deploymentStatus").toStr with
    | error e =>
      rw [notification_service_error up env1 t1 ev1 e hn hd
          (Or.inr ⟨nameText, hname, hstatus⟩),
        notification_service_error up env2 t2 ev2 e hn2 hd2
          (Or.inr ⟨nameText, by rw [← hpd]; exact hname, by rw [← hpd]; exact hstatus⟩)]
    | ok statusText =>
      rw [notification_service up env1 t1 ev1 nameText statusText hn hd hname hstatus,
        notification_service up env2 t2 ev2 nameText statusText hn2 hd2
          (by rw [← hpd]; exact hname) (by rw [← hpd]; exact hstatus),
        ← hpd, ← henv]

/-- C13 as stated fails: on a processedData whose serviceName is an object
with an own property toString, two runs at different clock readings both
throw a TypeError; neither yields a subject or a body to compare. -/
theorem C13_counterexample :
    notifier.notification asciiUpperCase prodEnv "2025-05-01T00:00:01.000Z"
        (.object deploymentInputOddName) = .error .notPrimitive
    ∧ notifier.notification asciiUpperCase prodEnv "2025-05-01T00:00:09.000Z"
        (.object deploymentInputOddName) = .error .notPrimitive :=
  ⟨rfl, rfl⟩

/-- C13, amended: take two notifier runs whose inputs have the same
processedData and rawEvent, under the same ENVIRONMENT, at any two clock
readings. Either both throw the same TypeError or both build a notification,
and then with the same subject and with bodies that agree on every property
other than timestamp. On the service-deployment branch the two outcomes are
equal altogether; on the generic branch both runs build a notification, and
each body's timestamp is the clock reading of its own run. -/
theorem C13_format_deterministic (toUpperCase : String → String)
    (env1 env2 : ProcessEnv) (t1 t2 : String)
    (ev1 ev2 : List (String × JSValue))
    (hpd : lookup ev1 "processedData" = lookup ev2 "processedData")
    (hraw : lookup ev1 "rawEvent" = lookup ev2 "rawEvent")
    (henv : env1.ENVIRONMENT = env2.ENVIRONMENT) :
    (∀ err, notifier.notification toUpperCase env1 t1 (.object ev1) = .error err ↔
        notifier.notification toUpperCase env2 t2 (.object ev2) = .error err)
    ∧ (∀ subject b1,
        notifier.notification toUpperCase env1 t1 (.object ev1) = .ok (subject, b1) →
        ∃ b2, notifier.notification toUpperCase env2 t2 (.object ev2) = .ok (subject, b2)
          ∧ ∀ key, key ≠ "timestamp" → b1.get key = b2.get key)
    ∧ (((lookup ev1 "processedData").get "serviceName").truthy = true →
        ((lookup ev1 "processedData").get "deploymentStatus").truthy = true →
        notifier.notification toUpperCase env1 t1 (.object ev1)
          = notifier.notification toUpperCase env2 t2 (.object ev2))
    ∧ ((((lookup ev1 "processedData").get "serviceName").truthy
          && ((lookup ev1 "processedData").get "deploymentStatus").truthy) = false →
        ∃ subject b1 b2,
          notifier.notification toUpperCase env1 t1 (.object ev1) = .ok (subject, b1)
          ∧ notifier.notification toUpperCase env2 t2 (.object ev2) = .ok (subject, b2)
          ∧ b1.get "timestamp" = .string t1 ∧ b2.get "timestamp" = .string t2) := by
  cases h : (((lookup ev1 "processedData").get "serviceName").truthy
          && ((lookup ev1 "processedData").get "deploymentStatus").truthy) with
  | false =>
    have h1 := notification_generic toUpperCase env1 t1 ev1 h
    have h2 := notification_generic toUpperCase env2 t2 ev2 (by rw [← hpd]; exact h)
    rw [← hpd, ← hraw, ← henv] at h2
    refine ⟨?_, ?_, ?_, ?_⟩
    · intro err
      rw [h1, h2]
      constructor <;> intro e <;> cases e
    · intro subject b1 hb
      rw [h1] at hb
      obtain ⟨hs, hb1⟩ := Prod.mk.inj (Except.ok.inj hb)
      refine ⟨_, by rw [h2, hs], ?_⟩
      intro key hk
      have hk2 : ¬ "timestamp" = key := fun e => hk e.symm
      rw [← hb1]
      simp [JSValue.get, JSValue.lookup, hk2]
    · intro hn hd
      rw [hn, hd] at h
      cases h
    · intro _
      exact ⟨_, _, _, h1, h2, rfl, rfl⟩
  | true =>
    rw [Bool.and_eq_true] at h
    have heq := notification_service_indep toUpperCase env1 env2 t1 t2 ev1 ev2 hpd henv
      h.1 h.2
    refine ⟨?_, ?_, ?_, ?_⟩
    · intro err
      rw [heq]
    · intro subject b1 hb
      exact ⟨b1, by rw [← heq]; exact hb, fun _ _ => rfl⟩
    · intro _ _
      exact heq
    · intro hc
      cases hc

/-- Witness of the amended C13: a service deployment and a generic event, each
formatted under two environments that share ENVIRONMENT, at two clock
readings. -/
theorem C13_format_deterministic_witness :
    prodEnv.ENVIRONMENT = prodEnvBare.ENVIRONMENT
    ∧ notifier.notification asciiUpperCase prodEnv "2025-05-01T00:00:01.000Z"
          (.object deploymentInput)
        = notifier.notification asciiUpperCase prodEnvBare "2025-05-01T00:00:09.000Z"
            (.object deploymentInput)
    ∧ (∃ subject b1 b2,
        notifier.notification asciiUpperCase prodEnv "2025-05-01T00:00:01.000Z"
            (.object genericInput) = .ok (subject, b1)
        ∧ notifier.notification asciiUpperCase prodEnvBare "2025-05-01T00:00:09.000Z"
            (.object genericInput) = .ok (subject, b2)
        ∧ b1.get "timestamp" = .string "2025-05-01T00:00:01.000Z"
        ∧ b2.get "timestamp" = .string "2025-05-01T00:00:09.000Z") := by
  obtain ⟨-, -, h3, -⟩ :=
    C13_format_deterministic asciiUpperCase prodEnv prodEnvBare "2025-05-01T00:00:01.000Z"
      "2025-05-01T00:00:09.000Z" deploymentInput deploymentInput rfl rfl rfl
  obtain ⟨-, -, -, g4⟩ :=
    C13_format_deterministic asciiUpperCase prodEnv prodEnvBare "2025-05-01T00:00:01.000Z"
      "2025-05-01T00:00:09.000Z" genericInput genericInput rfl rfl rfl
  exact ⟨rfl, h3 rfl rfl, g4 rfl⟩

/-! ## The generic path through the pipeline -/

/-- C14: for every raw event envelope that does not have both source
"aws.proton" and detail-type "Proton Service Status Change", whatever its
detail holds, the processor returns, the notifier's test
`serviceName && deploymentStatus` fails on the processedData it returned, and
processor then notifier build and publish the generic notification with
subject "[ENV_UPPER] Platform Event Notification". Conversely, when that test
succeeds on a processedData the processor returned, the raw event had that
source and detail-type. -/
theorem C14_generic_pipeline {ε : Type} (toUpperCase : String → String)
    (env : ProcessEnv) (publish : PublishParams → Except ε Unit)
    (now nowFormat nowReceipt : String) (props : List (String × JSValue)) :
    (¬ (lookup props "source" = .string "aws.proton"
          ∧ lookup props "detail-type" = .string "Proton Service Status Change") →
      ∃ out body, processor.handler env now (.object props) = .ok out
        ∧ notifier.isServiceDeployment (out.get "processedData") = .ok false
        ∧ notifier.notification toUpperCase env nowFormat out
            = .ok ("[" ++ toUpperCase (envOr env.ENVIRONMENT "unknown")
                    ++ "] Platform Event Notification", body)
        ∧ body.get "title" = .string "Platform Event Processed"
        ∧ (pipeline toUpperCase env publish now nowFormat nowReceipt
              (.object props)).published
            = [⟨envValue env.NOTIFICATION_TOPIC_ARN,
                "[" ++ toUpperCase (envOr env.ENVIRONMENT "unknown")
                  ++ "] Platform Event Notification",
                JSON.stringify body 2⟩])
    ∧ (∀ out, processor.handler env now (.object props) = .ok out →
        notifier.isServiceDeployment (out.get "processedData") = .ok true →
        lookup props "source" = .string "aws.proton"
          ∧ lookup props "detail-type" = .string "Proton Service Status Change") := by
  have key : notifier.isServiceDeployment
        ((response (genericData env now (lookup props "source")
          (lookup props "detail-type") (lookup props "detail")) (.object props)).get
            "processedData") = .ok false := rfl
  constructor
  · intro hg
    have hout := handler_generic env now props hg
    have hfmt := notification_generic_response toUpperCase env nowFormat
      (genericData env now (lookup props "source") (lookup props "detail-type")
        (lookup props "detail")) (.object props) rfl
    refine ⟨_, _, hout, key, hfmt, rfl, ?_⟩
    rw [pipeline_of_ok toUpperCase env publish now nowFormat nowReceipt _ _ hout]
    exact handler_published toUpperCase env publish nowFormat nowReceipt _ _ _ hfmt
  · intro out hout htest
    by_contra hg
    have ho := handler_generic_inv env now props out hg hout
    subst ho
    rw [key] at htest
    have := Except.ok.inj htest
    cases this

/-- Witness of C14: an event of another source whose detail carries name,
serviceName and deploymentStatus is published as the generic notification. -/
theorem C14_generic_pipeline_witness :
    ¬ (lookup otherWithDeploymentFields "source" = .string "aws.proton"
        ∧ lookup otherWithDeploymentFields "detail-type"
            = .string "Proton Service Status Change")
    ∧ ∃ out body,
        processor.handler prodEnv "2025-05-01T00:00:00.000Z"
            (.object otherWithDeploymentFields) = .ok out
        ∧ notifier.isServiceDeployment (out.get "processedData") = .ok false
        ∧ notifier.notification asciiUpperCase prodEnv "2025-05-01T00:00:01.000Z" out
            = .ok ("[PROD] Platform Event Notification", body)
        ∧ body.get "title" = .string "Platform Event Processed"
        ∧ (pipeline asciiUpperCase prodEnv publishOk "2025-05-01T00:00:00.000Z"
              "2025-05-01T00:00:01.000Z" "2025-05-01T00:00:02.000Z"
              (.object otherWithDeploymentFields)).published
            = [⟨.string "arn:aws:sns:ap-southeast-2:123456789012:demo",
                "[PROD] Platform Event Notification",
                JSON.stringify body 2⟩] := by
  have hg : ¬ (lookup otherWithDeploymentFields "source" = .string "aws.proton"
        ∧ lookup otherWithDeploymentFields "detail-type"
            = .string "Proton Service Status Change") := by
    simp [otherWithDeploymentFields, JSValue.lookup]
  exact ⟨hg, (C14_generic_pipeline asciiUpperCase prodEnv publishOk
    "2025-05-01T00:00:00.000Z" "2025-05-01T00:00:01.000Z" "2025-05-01T00:00:02.000Z"
    otherWithDeploymentFields).1 hg⟩

/-! ## The fallback chain of the generic body -/

theorem or_unknown_ne_capital (x : JSValue) (h : x ≠ .string "Unknown") :
    x.or (.string "unknown") ≠ .string "Unknown" := by
  cases ht : x.truthy
  · rw [or_of_not_truthy x _ ht]
    intro e
    exact absurd (JSValue.string.inj e) (by decide)
  · rw [or_of_truthy x _ ht]
    exact h

/-- C15: when the notifier's input is what the processor returned for a raw
event envelope and the notifier takes its generic branch, a notification is
built in which body.eventType is `detail-type || 'unknown'` and body.source is
`source || 'unknown'` of the raw event: the raw value when it is truthy
(non-empty), else "unknown" in lower case, and never the fallback "Unknown"
unless the raw value is that very string. For a notifier input of any origin
on the generic branch, each of the two is the processedData's own field when
truthy, else the rawEvent's field when truthy, else "Unknown". The processor
returns on every event of its generic branch, and on every Proton event whose
version fields convert to strings. -/
theorem C15_unknown_fallback (toUpperCase : String → String) (env envN : ProcessEnv)
    (now nowFormat : String) (props evProps : List (String × JSValue)) :
    (∀ out, processor.handler env now (.object props) = .ok out →
      notifier.isServiceDeployment (out.get "processedData") = .ok false →
      ∃ body, notifier.notification toUpperCase envN nowFormat out
          = .ok ("[" ++ toUpperCase (envOr envN.ENVIRONMENT "unknown")
                  ++ "] Platform Event Notification", body)
        ∧ body.get "eventType" = (lookup props "detail-type").or (.string "unknown")
        ∧ body.get "source" = (lookup props "source").or (.string "unknown")
        ∧ ((lookup props "detail-type").truthy = true →
            body.get "eventType" = lookup props "detail-type")
        ∧ ((lookup props "detail-type").truthy = false →
            body.get "eventType" = .string "unknown")
        ∧ ((lookup props "source").truthy = true →
            body.get "source" = lookup props "source")
        ∧ ((lookup props "source").truthy = false →
            body.get "source" = .string "unknown")
        ∧ (lookup props "detail-type" ≠ .string "Unknown" →
            body.get "eventType" ≠ .string "Unknown")
        ∧ (lookup props "source" ≠ .string "Unknown" →
            body.get "source" ≠ .string "Unknown"))
    ∧ (¬ (lookup props "source" = .string "aws.proton"
          ∧ lookup props "detail-type" = .string "Proton Service Status Change") →
        ∃ out, processor.handler env now (.object props) = .ok out
          ∧ notifier.isServiceDeployment (out.get "processedData") = .ok false)
    ∧ (lookup props "source" = .string "aws.proton"
        ∧ lookup props "detail-type" = .string "Proton Service Status Change" →
        ∀ major minor,
          ((lookup props "detail").get "templateMajorVersion").toStr = .ok major →
          ((lookup props "detail").get "templateMinorVersion").toStr = .ok minor →
          ∃ out, processor.handler env now (.object props) = .ok out)
    ∧ ((((lookup evProps "processedData").get "serviceName").truthy
          && ((lookup evProps "processedData").get "deploymentStatus").truthy) = false →
        ∃ body, notifier.notification toUpperCase envN nowFormat (.object evProps)
            = .ok ("[" ++ toUpperCase (envOr envN.ENVIRONMENT "unknown")
                    ++ "] Platform Event Notification", body)
          ∧ (((lookup evProps "processedData").get "eventType").truthy = true →
              body.get "eventType" = (lookup evProps "processedData").get "eventType")
          ∧ (((lookup evProps "processedData").get "eventType").truthy = false →
              ((lookup evProps "rawEvent").get "detail-type").truthy = true →
              body.get "eventType" = (lookup evProps "rawEvent").get "detail-type")
          ∧ (((lookup evProps "processedData").get "eventType").truthy = false →
              ((lookup evProps "rawEvent").get "detail-type").truthy = false →
              body.get "eventType" = .string "Unknown")
          ∧ (((lookup evProps "processedData").get "eventSource").truthy = true →
              body.get "source" = (lookup evProps "processedData").get "eventSource")
          ∧ (((lookup evProps "processedData").get "eventSource").truthy = false →
              ((lookup evProps "rawEvent").get "source").truthy = true →
              body.get "source" = (lookup evProps "rawEvent").get "source")
          ∧ (((lookup evProps "processedData").get "eventSource").truthy = false →
              ((lookup evProps "rawEvent").get "source").truthy = false →
              body.get "source" = .string "Unknown")) := by
  have fromRaw : ∀ raw : JSValue,
      (raw.truthy = true → raw.or (.string "unknown") = raw)
      ∧ (raw.truthy = false → raw.or (.string "unknown") = .string "unknown")
      ∧ (raw ≠ .string "Unknown" → raw.or (.string "unknown") ≠ .string "Unknown") :=
    fun raw => ⟨fun ht => or_of_truthy _ _ ht, fun ht => or_of_not_truthy _ _ ht,
      fun hne => or_unknown_ne_capital raw hne⟩
  refine ⟨?_, fun hg => ⟨_, handler_generic env now props hg, rfl⟩,
    fun hp major minor hmajor hminor =>
      ⟨_, handler_proton env now props major minor hp.1 hp.2 hmajor hminor⟩, ?_⟩
  · intro out hout htest
    by_cases h : lookup props "source" = .string "aws.proton"
        ∧ lookup props "detail-type" = .string "Proton Service Status Change"
    · obtain ⟨major, minor, -, -, ho⟩ := handler_proton_inv env now props out h.1 h.2 hout
      subst ho
      have hcond : (((lookup props "detail").get "name").truthy
          && ((lookup props "detail").get "deploymentStatus").truthy) = false :=
        Except.ok.inj
          ((isServiceDeployment_or_empty
            (protonData env now (lookup props "detail") (major ++ "." ++ minor))).symm.trans
            htest)
      have hfmt := notification_generic_response toUpperCase envN nowFormat
        (protonData env now (lookup props "detail") (major ++ "." ++ minor))
        (.object props) hcond
      have e1 : ((protonData env now (lookup props "detail") (major ++ "." ++ minor)).get
          "eventType").or (((JSValue.object props).get "detail-type").or (.string "Unknown"))
            = (lookup props "detail-type").or (.string "unknown") := by
        show (lookup props "detail-type").or (.string "Unknown")
          = (lookup props "detail-type").or (.string "unknown")
        rw [h.2]; rfl
      have e2 : ((protonData env now (lookup props "detail") (major ++ "." ++ minor)).get
          "eventSource").or (((JSValue.object props).get "source").or (.string "Unknown"))
            = (lookup props "source").or (.string "unknown") := by
        show (lookup props "source").or (.string "Unknown")
          = (lookup props "source").or (.string "unknown")
        rw [h.1]; rfl
      rw [e1, e2] at hfmt
      refine ⟨_, hfmt, rfl, rfl, ?_, ?_, ?_, ?_, ?_, ?_⟩
      · exact (fromRaw (lookup props "detail-type")).1
      · exact (fromRaw (lookup props "detail-type")).2.1
      · exact (fromRaw (lookup props "source")).1
      · exact (fromRaw (lookup props "source")).2.1
      · exact (fromRaw (lookup props "detail-type")).2.2
      · exact (fromRaw (lookup props "source")).2.2
    · have ho := handler_generic_inv env now props out h hout
      subst ho
      have hfmt := notification_generic_response toUpperCase envN nowFormat
        (genericData env now (lookup props "source") (lookup props "detail-type")
          (lookup props "detail")) (.object props) rfl
      have e1 : ((genericData env now (lookup props "source") (lookup props "detail-type")
          (lookup props "detail")).get "eventType").or
          (((JSValue.object props).get "detail-type").or (.string "Unknown"))
            = (lookup props "detail-type").or (.string "unknown") :=
        or_of_truthy _ _ (or_unknown_truthy _)
      have e2 : ((genericData env now (lookup props "source") (lookup props "detail-type")
          (lookup props "detail")).get "eventSource").or
          (((JSValue.object props).get "source").or (.string "Unknown"))
            = (lookup props "source").or (.string "unknown") :=
        or_of_truthy _ _ (or_unknown_truthy _)
      rw [e1, e2] at hfmt
      refine ⟨_, hfmt, rfl, rfl, ?_, ?_, ?_, ?_, ?_, ?_⟩
      · exact (fromRaw (lookup props "detail-type")).1
      · exact (fromRaw (lookup props "detail-type")).2.1
      · exact (fromRaw (lookup props "source")).1
      · exact (fromRaw (lookup props "source")).2.1
      · exact (fromRaw (lookup props "detail-type")).2.2
      · exact (fromRaw (lookup props "source")).2.2
  · intro hcond
    refine ⟨_, notification_generic toUpperCase envN nowFormat evProps hcond,
      ?_, ?_, ?_, ?_, ?_, ?_⟩
    · intro ht
      exact or_of_truthy _ _ ht
    · intro ht hr
      show ((lookup evProps "processedData").get "eventType").or _ = _
      rw [or_of_not_truthy _ _ ht, or_of_truthy _ _ hr]
    · intro ht hr
      show ((lookup evProps "processedData").get "eventType").or _ = _
      rw [or_of_not_truthy _ _ ht, or_of_not_truthy _ _ hr]
    · intro ht
      exact or_of_truthy _ _ ht
    · intro ht hr
      show ((lookup evProps "processedData").get "eventSource").or _ = _
      rw [or_of_not_truthy _ _ ht, or_of_truthy _ _ hr]
    · intro ht hr
      show ((lookup evProps "processedData").get "eventSource").or _ = _
      rw [or_of_not_truthy _ _ ht, or_of_not_truthy _ _ hr]

/-- Witness of C15 with the ASCII upper-casing: through the processor, the
envelope with empty source and detail-type is notified with eventType and
source "unknown"; a notifier invoked on an empty object reports "Unknown" for
both. -/
theorem C15_unknown_fallback_witness :
    (∃ out body,
      processor.handler unsetEnv "2025-05-01T00:00:00.000Z" (.object blankEnvelope)
        = .ok out
      ∧ notifier.notification asciiUpperCase unsetEnv "2025-05-01T00:00:01.000Z" out
          = .ok ("[UNKNOWN] Platform Event Notification", body)
      ∧ body.get "eventType" = .string "unknown"
      ∧ body.get "source" = .string "unknown")
    ∧ (∃ body,
        notifier.notification asciiUpperCase unsetEnv "2025-05-01T00:00:01.000Z"
            (.object [])
          = .ok ("[UNKNOWN] Platform Event Notification", body)
        ∧ body.get "eventType" = .string "Unknown"
        ∧ body.get "source" = .string "Unknown") := by
  obtain ⟨h, hret, -, h2⟩ :=
    C15_unknown_fallback asciiUpperCase unsetEnv unsetEnv "2025-05-01T00:00:00.000Z"
      "2025-05-01T00:00:01.000Z" blankEnvelope []
  obtain ⟨out, hout, htest⟩ := hret (by simp [blankEnvelope, JSValue.lookup])
  obtain ⟨body, hb, -, -, -, he, -, hs, -, -⟩ := h out hout htest
  obtain ⟨body2, hb2, -, -, he2, -, -, hs2⟩ := h2 rfl
  exact ⟨⟨out, body, hout, hb, he rfl, hs rfl⟩, ⟨body2, hb2, he2 rfl rfl, hs2 rfl rfl⟩⟩

/-! ## Defaults before classification -/

theorem not_proton_of_source_falsy (props : List (String × JSValue))
    (h : (lookup props "source").truthy = false) :
    ¬ (lookup props "source" = .string "aws.proton"
        ∧ lookup props "detail-type" = .string "Proton Service Status Change") := by
  intro hp
  rw [hp.1] at h
  cases h

theorem not_proton_of_type_falsy (props : List (String × JSValue))
    (h : (lookup props "detail-type").truthy = false) :
    ¬ (lookup props "source" = .string "aws.proton"
        ∧ lookup props "detail-type" = .string "Proton Service Status Change") := by
  intro hp
  rw [hp.2] at h
  cases h

/-- C16: the processor defaults source, detail-type and detail before it
classifies. For every raw event envelope: when source is missing, empty or
otherwise falsy the processor returns the generic processedData with
eventSource "unknown"; when detail-type is so, it returns the generic
processedData with eventType "unknown"; on the generic branch a missing
(falsy) detail gives rawDetail the empty object; and for a Proton service
status change whose detail is missing (falsy) the processor still returns the
service-deployment processedData, in which serviceName, status,
deploymentStatus and templateName are undefined, templateVersion is
"undefined.undefined" and timestamp is the clock reading. -/
theorem C16_defaults_before_classification (env : ProcessEnv) (now : String)
    (props : List (String × JSValue)) :
    ((lookup props "source").truthy = false →
      ∃ out, processor.handler env now (.object props) = .ok out
        ∧ out.get "processedData"
          = .object [("eventSource", .string "unknown"),
                     ("eventType", (lookup props "detail-type").or (.string "unknown")),
                     ("timestamp", .string now),
                     ("rawDetail", (lookup props "detail").or (.object [])),
                     ("environment", .string (envOr env.ENVIRONMENT "unknown")),
                     ("region", .string (envOr env.AWS_REGION "unknown"))])
    ∧ ((lookup props "detail-type").truthy = false →
        ∃ out, processor.handler env now (.object props) = .ok out
          ∧ out.get "processedData"
            = .object [("eventSource", (lookup props "source").or (.string "unknown")),
                       ("eventType", .string "unknown"),
                       ("timestamp", .string now),
                       ("rawDetail", (lookup props "detail").or (.object [])),
                       ("environment", .string (envOr env.ENVIRONMENT "unknown")),
                       ("region", .string (envOr env.AWS_REGION "unknown"))])
    ∧ (¬ (lookup props "source" = .string "aws.proton"
          ∧ lookup props "detail-type" = .string "Proton Service Status Change") →
        (lookup props "detail").truthy = false →
        ∃ out, processor.handler env now (.object props) = .ok out
          ∧ (out.get "processedData").get "rawDetail" = .object [])
    ∧ (lookup props "source" = .string "aws.proton"
        ∧ lookup props "detail-type" = .string "Proton Service Status Change" →
        (lookup props "detail").truthy = false →
        ∃ out, processor.handler env now (.object props) = .ok out
          ∧ out.get "processedData"
            = .object [("serviceName", .undefined),
                       ("status", .undefined),
                       ("deploymentStatus", .undefined),
                       ("templateName", .undefined),
                       ("templateVersion", .string "undefined.undefined"),
                       ("timestamp", .string now),
                       ("environment", .string (envOr env.ENVIRONMENT "unknown")),
                       ("region", .string (envOr env.AWS_REGION "unknown"))]) := by
  refine ⟨?_, ?_, ?_, ?_⟩
  · intro hs
    refine ⟨_, handler_generic env now props (not_proton_of_source_falsy props hs), ?_⟩
    show genericData env now (lookup props "source") (lookup props "detail-type")
      (lookup props "detail") = _
    simp only [genericData, or_of_not_truthy _ _ hs]
  · intro ht
    refine ⟨_, handler_generic env now props (not_proton_of_type_falsy props ht), ?_⟩
    show genericData env now (lookup props "source") (lookup props "detail-type")
      (lookup props "detail") = _
    simp only [genericData, or_of_not_truthy _ _ ht]
  · intro hg hd
    refine ⟨_, handler_generic env now props hg, ?_⟩
    show (lookup props "detail").or (.object []) = _
    exact or_of_not_truthy _ _ hd
  · intro hp hd
    have hmajor : ((lookup props "detail").get "templateMajorVersion").toStr
        = .ok "undefined" := by
      rw [get_of_not_truthy _ _ hd]; rfl
    have hminor : ((lookup props "detail").get "templateMinorVersion").toStr
        = .ok "undefined" := by
      rw [get_of_not_truthy _ _ hd]; rfl
    refine ⟨_, handler_proton env now props "undefined" "undefined" hp.1 hp.2 hmajor hminor,
      ?_⟩
    show protonData env now (lookup props "detail") ("undefined" ++ "." ++ "undefined") = _
    simp only [protonData, get_of_not_truthy _ _ hd]
    rfl

/-- Witness of C16 on the envelope with empty source and detail-type and no
detail, and on the Proton service status change without a detail. -/
theorem C16_defaults_before_classification_witness :
    (∃ out, processor.handler unsetEnv "2025-05-01T00:00:00.000Z" (.object blankEnvelope)
        = .ok out
      ∧ out.get "processedData"
          = .object [("eventSource", .string "unknown"),
                     ("eventType", .string "unknown"),
                     ("timestamp", .string "2025-05-01T00:00:00.000Z"),
                     ("rawDetail", .object []),
                     ("environment", .string "unknown"),
                     ("region", .string "unknown")])
    ∧ (∃ out, processor.handler unsetEnv "2025-05-01T00:00:00.000Z"
          (.object protonNoDetail) = .ok out
      ∧ out.get "processedData"
          = .object [("serviceName", .undefined),
                     ("status", .undefined),
                     ("deploymentStatus", .undefined),
                     ("templateName", .undefined),
                     ("templateVersion", .string "undefined.undefined"),
                     ("timestamp", .string "2025-05-01T00:00:00.000Z"),
                     ("environment", .string "unknown"),
                     ("region", .string "unknown")]) := by
  obtain ⟨h1, -, -, -⟩ :=
    C16_defaults_before_classification unsetEnv "2025-05-01T00:00:00.000Z" blankEnvelope
  obtain ⟨-, -, -, h4⟩ :=
    C16_defaults_before_classification unsetEnv "2025-05-01T00:00:00.000Z" protonNoDetail
  exact ⟨h1 rfl, h4 ⟨rfl, rfl⟩ rfl⟩

end Summit
